import Mathlib

/-!
Verification development for the Prix Goncourt 2025 selection/vote workflow.

The Python program keeps its state in four MySQL tables (`book`, `selection`,
`book_selection`, `vote`), accessed through DAO classes, with the business
rules in `business/goncourt.py` (`GoncourtService`) and the console facade in
`main.py` (`GoncourtApplication`).  The shallow embedding below models the
database as a Lean structure `DB` (lists in physical/insertion order: InnoDB
returns rows of these append-only tables in primary-key, i.e. insertion,
order, and every query of the program either has no ORDER BY — modelled as
insertion order — or an explicit one, modelled by an explicit sort).  The
`book_selection` junction table's `INSERT IGNORE` is modelled as set-semantics
insertion (the spec describes a round's works as a set, so the junction table
carries a uniqueness key over `(b_id, s_id)`).  Each DAO body is wrapped in
`try/except` in Python; a possible database exception inside a mutating DAO
body is modelled by an explicit `fault : Bool` parameter, and an aborted
(never-committed) transaction is modelled as leaving the stored state
unchanged.  Descriptive columns that never influence control flow (summary,
pages, price, author, publisher, character list) are carried only as far as
the claims need them.  Vote counts are Python ints, modelled as `Int`;
Python's insertion-ordered `dict` of votes is modelled as an association
list (a real dict never repeats a key).
-/

/-- models/book.py `Book` (descriptive optional fields that never influence
the workflow's control flow are omitted). -/
structure Book where
  b_id : Nat
  isbn : String
  b_title : String
deriving Repr, DecidableEq

/-- A row of the `selection` table (models/selection.py `Selection` without
its loaded `book` list; `s_date` is a yyyymmdd number, dates never influence
control flow). -/
structure SelectionRow where
  s_id : Nat
  s_name : String
  s_round : Nat
  s_date : Option Nat
deriving Repr, DecidableEq

/-- models/selection.py `Selection` as passed to `SelectionDAO.create`:
header fields plus the `book` list. -/
structure Selection where
  s_id : Nat
  s_name : String
  s_round : Nat
  s_date : Option Nat
  book : List Book
deriving Repr, DecidableEq

/-- A row of the `vote` table (models/vote.py `Vote` by foreign keys rather
than loaded objects; `v_number_vote` is a Python int, so an `Int`). -/
structure VoteRow where
  v_id : Nat
  v_number_vote : Int
  v_date_vote : Nat
  b_id : Nat
  s_id : Nat
deriving Repr, DecidableEq

/-- The database: the four tables in insertion order plus the two
auto-increment counters (MySQL AUTO_INCREMENT starts at 1). -/
structure DB where
  books : List Book
  selections : List SelectionRow
  book_selection : List (Nat × Nat)
  votes : List VoteRow
  nextSelId : Nat
  nextVoteId : Nat
deriving Repr, DecidableEq

/-- daos/book_dao.py `BookDAO.read`: SELECT by primary key. -/
def BookDAO.read (db : DB) (pk : Nat) : Option Book :=
  db.books.find? (fun b => b.b_id == pk)

/-- daos/book_dao.py `BookDAO.read_all`: all books (the SQL ORDER BY b_title
only permutes the catalog; the workflow treats it as a set, so table order is
kept). -/
def BookDAO.read_all (db : DB) : List Book :=
  db.books

/-- daos/book_dao.py `BookDAO.get_books_by_selection`: join of `book` and
`book_selection` on the selection id (an inner join: a dangling junction row
contributes nothing). -/
def BookDAO.get_books_by_selection (db : DB) (selection_id : Nat) : List Book :=
  (db.book_selection.filter (fun p => p.2 == selection_id)).filterMap
    (fun p => BookDAO.read db p.1)

/-- daos/selection_dao.py `SelectionDAO.find_by_round`: SELECT ... WHERE
s_round = n with fetchone and no ORDER BY — the first stored row of that
round. -/
def SelectionDAO.find_by_round (db : DB) (round_number : Nat) : Option SelectionRow :=
  db.selections.find? (fun r => r.s_round == round_number)

/-- The loaded work list of a stored selection (what the DAO layer puts into
`selection.book` after `find_by_round`). -/
def selection_books (db : DB) (sid : Nat) : List Book :=
  BookDAO.get_books_by_selection db sid

/-- daos/selection_dao.py `SelectionDAO.add_book_to_selection`:
INSERT IGNORE into the junction table, reporting whether a row was added. -/
def SelectionDAO.add_book_to_selection (db : DB) (book_id selection_id : Nat) :
    Bool × DB :=
  if (book_id, selection_id) ∈ db.book_selection then
    (false, db)
  else
    (true, { db with book_selection := db.book_selection ++ [(book_id, selection_id)] })

/-- A mutating DAO call's outcome: the Python return value, the database
afterwards, and the messages the DAO printed. -/
structure DaoOut (α : Type) where
  res : α
  db : DB
  log : List String
deriving Repr

/-- The opaque collaborator-level error a DAO body can raise (any
`Exception` of pymysql). -/
inductive DbErr
  | dbError
deriving Repr, DecidableEq

/-- Raises exactly when the injected fault says the database layer fails
while running `body` (the body of a Python `try:` block). -/
def dao_guard {α : Type} (fault : Bool) (body : α) : Except DbErr α :=
  if fault then Except.error DbErr.dbError else Except.ok body

/-- The `for book in obj.book: self.add_book_to_selection(...)` loop of
`SelectionDAO.create`. -/
def add_books_fold (selection_id : Nat) (bs : List Book) (d : DB) : DB :=
  bs.foldl (fun d b => (SelectionDAO.add_book_to_selection d b.b_id selection_id).2) d

/-- The effect of daos/selection_dao.py `SelectionDAO.create` when the SQL
succeeds: insert the selection row, then add each listed book to the
junction table (duplicates ignored). -/
def SelectionDAO.create_body (db : DB) (obj : Selection) : Nat × DB :=
  let selection_id := db.nextSelId
  let db1 : DB :=
    { db with
      selections := db.selections ++
        [{ s_id := selection_id, s_name := obj.s_name, s_round := obj.s_round,
           s_date := obj.s_date }],
      nextSelId := selection_id + 1 }
  (selection_id, add_books_fold selection_id obj.book db1)

/-- daos/selection_dao.py `SelectionDAO.create` with its `try/except` kept as
an `Except` computation: a database exception is caught, logged, and turned
into the error id 0 with the transaction never committed. -/
def SelectionDAO.create_caught (db : DB) (fault : Bool) (obj : Selection) :
    Except DbErr (DaoOut Nat) :=
  match dao_guard fault (SelectionDAO.create_body db obj) with
  | Except.ok (i, db2) => Except.ok ⟨i, db2, []⟩
  | Except.error _ =>
      Except.ok ⟨0, db, ["Erreur lors de la création de la sélection"]⟩

/-- daos/selection_dao.py `SelectionDAO.create` as the total function the
service layer sees. -/
def SelectionDAO.create (db : DB) (fault : Bool) (obj : Selection) : DaoOut Nat :=
  if fault then ⟨0, db, ["Erreur lors de la création de la sélection"]⟩
  else
    let r := SelectionDAO.create_body db obj
    ⟨r.1, r.2, []⟩

/-- Sorted insertion for `ORDER BY v_number_vote DESC`: a row moves in front
of the first strictly smaller count (a stable descending sort). -/
def insert_by_votes_desc (v : VoteRow) : List VoteRow → List VoteRow
  | [] => [v]
  | w :: ws =>
      if w.v_number_vote < v.v_number_vote then v :: w :: ws
      else w :: insert_by_votes_desc v ws

/-- The sort behind `ORDER BY v_number_vote DESC`. -/
def sort_by_votes_desc : List VoteRow → List VoteRow
  | [] => []
  | v :: vs => insert_by_votes_desc v (sort_by_votes_desc vs)

/-- The rows produced by the joins of daos/vote_dao.py
`VoteDAO.get_final_results`: votes whose selection row has round 4 and whose
book row exists (inner joins). -/
def VoteDAO.round4_join (db : DB) : List VoteRow :=
  db.votes.filter (fun v =>
    (BookDAO.read db v.b_id).isSome &&
      ((db.selections.find? (fun s => s.s_id == v.s_id)).map
        (fun s => s.s_round) == some 4))

/-- daos/vote_dao.py `VoteDAO.get_final_results`: the round-4 join ordered by
descending vote count. -/
def VoteDAO.get_final_results (db : DB) : List VoteRow :=
  sort_by_votes_desc (VoteDAO.round4_join db)

/-- The `for book_id, vote_count in votes_data.items(): cursor.execute(...)`
insertion loop of `VoteDAO.record_final_votes`. -/
def insert_votes_fold (selection_id vote_date : Nat)
    (votes_data : List (Nat × Int)) (d : DB) : DB :=
  votes_data.foldl
    (fun d p =>
      { d with
        votes := d.votes ++
          [{ v_id := d.nextVoteId, v_number_vote := p.2, v_date_vote := vote_date,
             b_id := p.1, s_id := selection_id }],
        nextVoteId := d.nextVoteId + 1 })
    d

/-- The effect of daos/vote_dao.py `VoteDAO.record_final_votes` when the SQL
succeeds: delete every vote of the given selection, then insert one vote row
per entry of the map, in the dict's insertion order. -/
def VoteDAO.record_final_votes_body (db : DB) (votes_data : List (Nat × Int))
    (selection_id : Nat) (vote_date : Nat) : DB :=
  let db1 : DB := { db with votes := db.votes.filter (fun v => v.s_id != selection_id) }
  insert_votes_fold selection_id vote_date votes_data db1

/-- daos/vote_dao.py `VoteDAO.record_final_votes` with its `try/except` kept
as an `Except` computation: a database exception is caught, logged, and the
transaction is never committed. -/
def VoteDAO.record_final_votes_caught (db : DB) (fault : Bool)
    (votes_data : List (Nat × Int)) (selection_id : Nat) (vote_date : Nat) :
    Except DbErr (DaoOut Bool) :=
  match dao_guard fault (VoteDAO.record_final_votes_body db votes_data selection_id vote_date) with
  | Except.ok db2 => Except.ok ⟨true, db2, []⟩
  | Except.error _ =>
      Except.ok ⟨false, db, ["Erreur lors de l’enregistrement des votes finaux"]⟩

/-- daos/vote_dao.py `VoteDAO.record_final_votes` as the total function the
service layer sees. -/
def VoteDAO.record_final_votes (db : DB) (fault : Bool)
    (votes_data : List (Nat × Int)) (selection_id : Nat) (vote_date : Nat) :
    DaoOut Bool :=
  if fault then ⟨false, db, ["Erreur lors de l’enregistrement des votes finaux"]⟩
  else ⟨true, VoteDAO.record_final_votes_body db votes_data selection_id vote_date, []⟩

/-- A service operation's outcome: the returned bool, the database
afterwards, and the messages printed along the way. -/
structure SvcOut where
  ok : Bool
  db : DB
  log : List String
deriving Repr

/-- The book-loading loop shared by `create_deuxieme_selection` and
`create_troisieme_selection`: read every id, stopping at the first id that
does not resolve to a stored book. -/
def collect_books (db : DB) : List Nat → Except Nat (List Book)
  | [] => Except.ok []
  | i :: is =>
      match BookDAO.read db i with
      | none => Except.error i
      | some b => (collect_books db is).map (fun bs => b :: bs)

/-- business/goncourt.py `GoncourtService._initialize_first_selection`:
create round 1 from the full catalog, only when no round-1 row exists (the
Python method returns nothing, so only the database and the printed messages
come back). -/
def GoncourtService.initialize_first_selection (fault : Bool) (db : DB) :
    DB × List String :=
  match SelectionDAO.find_by_round db 1 with
  | some _ => (db, [])
  | none =>
      let all_books := BookDAO.read_all db
      let out := SelectionDAO.create db fault
        { s_id := 0, s_name := "PREMIÈRE SÉLECTION", s_round := 1,
          s_date := some 20250903, book := all_books }
      if out.res != 0 then
        (out.db, out.log ++ ["✓ Première sélection initialisée avec 15 livres"])
      else
        (out.db, out.log)

/-- business/goncourt.py `GoncourtService.create_deuxieme_selection`. -/
def GoncourtService.create_deuxieme_selection (fault : Bool) (book_ids : List Nat)
    (db : DB) : SvcOut :=
  if book_ids.length != 8 then
    ⟨false, db, ["✗ La deuxième sélection doit contenir exactement 8 livres."]⟩
  else
    match collect_books db book_ids with
    | Except.error bid =>
        ⟨false, db, ["✗ Livre avec ID " ++ toString bid ++ " non trouvé."]⟩
    | Except.ok books =>
        match SelectionDAO.find_by_round db 1 with
        | none =>
            ⟨false, db,
              ["✗ La première sélection doit exister avant de créer la deuxième."]⟩
        | some premiere =>
            let premiere_book_ids :=
              (selection_books db premiere.s_id).map (fun b => b.b_id)
            match book_ids.find? (fun bid => !(premiere_book_ids.contains bid)) with
            | some bid =>
                ⟨false, db,
                  ["✗ Le livre avec ID " ++ toString bid ++
                    " n’est pas dans la première sélection."]⟩
            | none =>
                let out := SelectionDAO.create db fault
                  { s_id := 0, s_name := "DEUXIÈME SÉLECTION", s_round := 2,
                    s_date := some 20251007, book := books }
                if out.res != 0 then
                  ⟨true, out.db,
                    out.log ++ ["✓ Deuxième sélection créée avec " ++
                      toString books.length ++ " livres"]⟩
                else ⟨false, out.db, out.log⟩

/-- business/goncourt.py `GoncourtService.create_troisieme_selection`. -/
def GoncourtService.create_troisieme_selection (fault : Bool) (book_ids : List Nat)
    (db : DB) : SvcOut :=
  if book_ids.length != 4 then
    ⟨false, db, ["✗ La troisième sélection doit contenir exactement 4 livres."]⟩
  else
    match collect_books db book_ids with
    | Except.error bid =>
        ⟨false, db, ["✗ Livre avec ID " ++ toString bid ++ " non trouvé."]⟩
    | Except.ok books =>
        match SelectionDAO.find_by_round db 2 with
        | none =>
            ⟨false, db,
              ["✗ La deuxième sélection doit exister avant de créer la troisième."]⟩
        | some deuxieme =>
            let deuxieme_book_ids :=
              (selection_books db deuxieme.s_id).map (fun b => b.b_id)
            match book_ids.find? (fun bid => !(deuxieme_book_ids.contains bid)) with
            | some bid =>
                ⟨false, db,
                  ["✗ Le livre avec ID " ++ toString bid ++
                    " n’est pas dans la deuxième sélection."]⟩
            | none =>
                let out := SelectionDAO.create db fault
                  { s_id := 0, s_name := "TROISIÈME SÉLECTION", s_round := 3,
                    s_date := some 20251028, book := books }
                if out.res != 0 then
                  ⟨true, out.db,
                    out.log ++ ["✓ Troisième sélection créée avec " ++
                      toString books.length ++ " livres"]⟩
                else ⟨false, out.db, out.log⟩

/-- business/goncourt.py `GoncourtService.create_final_selection`: copy the
round-3 works into a new round-4 selection. -/
def GoncourtService.create_final_selection (fault : Bool) (db : DB) : SvcOut :=
  match SelectionDAO.find_by_round db 3 with
  | none =>
      ⟨false, db,
        ["✗ La troisième sélection doit exister avant de créer la sélection finale."]⟩
  | some troisieme =>
      let tbooks := selection_books db troisieme.s_id
      if tbooks.length != 4 then
        ⟨false, db, ["✗ La troisième sélection doit contenir 4 livres."]⟩
      else
        let out := SelectionDAO.create db fault
          { s_id := 0, s_name := "FINALISTES DU PRIX GONCOURT", s_round := 4,
            s_date := some 20251104, book := tbooks }
        if out.res != 0 then
          ⟨true, out.db, out.log ++ ["✓ Sélection finale créée avec les 4 finalistes"]⟩
        else ⟨false, out.db, out.log⟩

/-- business/goncourt.py `GoncourtService.record_final_votes`: the vote map
is an insertion-ordered association list, faithful to the Python dict. -/
def GoncourtService.record_final_votes (fault : Bool)
    (votes_data : List (Nat × Int)) (today : Nat) (db : DB) : SvcOut :=
  match SelectionDAO.find_by_round db 4 with
  | none =>
      ⟨false, db,
        ["✗ La sélection finale doit exister avant d’enregistrer les votes."]⟩
  | some finale =>
      let finale_book_ids := (selection_books db finale.s_id).map (fun b => b.b_id)
      match (votes_data.map Prod.fst).find?
          (fun bid => !(finale_book_ids.contains bid)) with
      | some bid =>
          ⟨false, db,
            ["✗ Le livre avec ID " ++ toString bid ++
              " n’est pas dans la sélection finale."]⟩
      | none =>
          let total_votes := (votes_data.map Prod.snd).sum
          if total_votes != 10 then
            ⟨false, db,
              ["✗ Le total des votes doit être exactement 10 (nombre de membres du jury)."]⟩
          else
            let out := VoteDAO.record_final_votes db fault votes_data finale.s_id today
            if out.res then
              ⟨true, out.db, out.log ++ ["✓ Votes enregistrés avec succès"]⟩
            else ⟨false, out.db, out.log⟩

/-- business/goncourt.py `GoncourtService.get_final_results`. -/
def GoncourtService.get_final_results (db : DB) : List VoteRow :=
  VoteDAO.get_final_results db

/-- business/goncourt.py `GoncourtService.get_available_books_for_selection`. -/
def GoncourtService.get_available_books_for_selection (db : DB)
    (round_number : Nat) : List Book :=
  if round_number == 1 then BookDAO.read_all db
  else if round_number == 2 then
    match SelectionDAO.find_by_round db 1 with
    | some premiere => selection_books db premiere.s_id
    | none => []
  else if round_number == 3 then
    match SelectionDAO.find_by_round db 2 with
    | some deuxieme => selection_books db deuxieme.s_id
    | none => []
  else []

/-- business/goncourt.py `GoncourtService.display_final_results`, reduced to
the data it computes and prints: the winner (`votes[0]`, absent when no votes
are recorded) and each result row with its displayed percentage
`count / total * 100`, the division guarded by `if total_votes > 0 else 0`.
The Python float division is modelled over `ℚ`. -/
def GoncourtService.display_final_results (db : DB) :
    Option VoteRow × List (VoteRow × ℚ) :=
  let votes := GoncourtService.get_final_results db
  if votes.isEmpty then (none, [])
  else
    let total_votes : Int := (votes.map (fun v => v.v_number_vote)).sum
    (votes.head?,
      votes.map (fun v =>
        (v, if 0 < total_votes then
              ((v.v_number_vote : ℚ) / (total_votes : ℚ)) * 100
            else 0)))

/-- main.py `GoncourtApplication.create_deuxieme_selection`: the console
flow after input parsing.  `replace_ok` is the operator's answer to the
"Voulez-vous la recréer?" prompt; `indices` is the already-parsed list of
0-based indices (`int(x) - 1`) into the available books.  After a successful
service call the facade always calls `create_final_selection`. -/
def GoncourtApplication.create_deuxieme_selection (fault : Bool)
    (replace_ok : Bool) (indices : List Int) (db : DB) : SvcOut :=
  if !(SelectionDAO.find_by_round db 1).isSome then
    ⟨false, db, ["✗ La première sélection doit exister avant de créer la deuxième."]⟩
  else if (SelectionDAO.find_by_round db 2).isSome && !replace_ok then
    ⟨false, db, ["✗ La deuxième sélection existe déjà."]⟩
  else
    let available_books := GoncourtService.get_available_books_for_selection db 2
    if available_books.isEmpty then
      ⟨false, db, ["✗ Aucun livre disponible pour la deuxième sélection."]⟩
    else if indices.length != 8 then
      ⟨false, db, ["✗ Vous devez sélectionner exactement 8 livres."]⟩
    else if indices.any (fun idx => idx < 0 || (available_books.length : Int) ≤ idx) then
      ⟨false, db, ["✗ Indice invalide."]⟩
    else
      let selected_book_ids := indices.filterMap
        (fun idx => (available_books[idx.toNat]?).map (fun b => b.b_id))
      let out := GoncourtService.create_deuxieme_selection fault selected_book_ids db
      if out.ok then
        let out2 := GoncourtService.create_final_selection fault out.db
        ⟨true, out2.db,
          out.log ++ ["✓ Deuxième sélection créée avec succès!"] ++ out2.log⟩
      else
        ⟨false, out.db, out.log ++ ["✗ Échec de la création de la deuxième sélection."]⟩

/-- main.py `GoncourtApplication.create_troisieme_selection`: same console
flow for round 3; after a successful service call the facade always calls
`create_final_selection`. -/
def GoncourtApplication.create_troisieme_selection (fault : Bool)
    (replace_ok : Bool) (indices : List Int) (db : DB) : SvcOut :=
  if !(SelectionDAO.find_by_round db 2).isSome then
    ⟨false, db, ["✗ La deuxième sélection doit exister avant de créer la troisième."]⟩
  else if (SelectionDAO.find_by_round db 3).isSome && !replace_ok then
    ⟨false, db, ["✗ La troisième sélection existe déjà."]⟩
  else
    let available_books := GoncourtService.get_available_books_for_selection db 3
    if available_books.isEmpty then
      ⟨false, db, ["✗ Aucun livre disponible pour la troisième sélection."]⟩
    else if indices.length != 4 then
      ⟨false, db, ["✗ Vous devez sélectionner exactement 4 livres."]⟩
    else if indices.any (fun idx => idx < 0 || (available_books.length : Int) ≤ idx) then
      ⟨false, db, ["✗ Indice invalide."]⟩
    else
      let selected_book_ids := indices.filterMap
        (fun idx => (available_books[idx.toNat]?).map (fun b => b.b_id))
      let out := GoncourtService.create_troisieme_selection fault selected_book_ids db
      if out.ok then
        let out2 := GoncourtService.create_final_selection fault out.db
        ⟨true, out2.db,
          out.log ++ ["✓ Troisième sélection créée avec succès!"] ++ out2.log⟩
      else
        ⟨false, out.db, out.log ++ ["✗ Échec de la création de la troisième sélection."]⟩

/-- One mutating workflow operation, with its injected persistence fault and
its inputs (the console facade's operations are compositions of these). -/
inductive Op where
  | opInit (fault : Bool)
  | opCreate2 (fault : Bool) (ids : List Nat)
  | opCreate3 (fault : Bool) (ids : List Nat)
  | opFinal (fault : Bool)
  | opRecord (fault : Bool) (votes : List (Nat × Int)) (today : Nat)
deriving Repr

/-- The database after one workflow operation. -/
def applyOp (db : DB) : Op → DB
  | Op.opInit fault => (GoncourtService.initialize_first_selection fault db).1
  | Op.opCreate2 fault ids => (GoncourtService.create_deuxieme_selection fault ids db).db
  | Op.opCreate3 fault ids => (GoncourtService.create_troisieme_selection fault ids db).db
  | Op.opFinal fault => (GoncourtService.create_final_selection fault db).db
  | Op.opRecord fault votes today =>
      (GoncourtService.record_final_votes fault votes today db).db

/-- The database after a sequence of workflow operations. -/
def runOps (db : DB) : List Op → DB
  | [] => db
  | op :: ops => runOps (applyOp db op) ops

/-- The store as the application first sees it: the seeded book catalog,
no selections and no votes (both auto-increment counters at 1). -/
def initialDB (catalog : List Book) : DB :=
  { books := catalog, selections := [], book_selection := [], votes := [],
    nextSelId := 1, nextVoteId := 1 }

/-- A state the workflow can reach from a freshly seeded store, in any call
order (the constructor's `_initialize_first_selection` call is itself an
`Op.opInit`). -/
def Reachable (catalog : List Book) (db : DB) : Prop :=
  ∃ ops : List Op, db = runOps (initialDB catalog) ops

/-- The round number of the selection row a foreign key points to. -/
def selRound (db : DB) (sid : Nat) : Option Nat :=
  (db.selections.find? (fun r => r.s_id == sid)).map (fun r => r.s_round)

/-- The work-id list of the stored round `n` as the program observes it
(`find_by_round` then the loaded book list), or `[]` when the round does not
exist. -/
def roundWorkIds (db : DB) (n : Nat) : List Nat :=
  match SelectionDAO.find_by_round db n with
  | some r => (selection_books db r.s_id).map Book.b_id
  | none => []

/-- Well-formedness of the stored state.  Every conjunct is established by
`initialDB` and preserved by every workflow operation (`wf_runOps` below):
primary keys are unique, auto-increment counters bound every stored id, every
round-4 selection row carries exactly the observable round-3 work set, and
every vote row points at the observable round-4 selection and at a stored
book. -/
def WF (db : DB) : Prop :=
  (db.books.map Book.b_id).Nodup
  ∧ 0 < db.nextSelId
  ∧ (∀ r ∈ db.selections, r.s_id < db.nextSelId)
  ∧ (db.selections.map SelectionRow.s_id).Nodup
  ∧ (∀ p ∈ db.book_selection, p.2 < db.nextSelId)
  ∧ db.book_selection.Nodup
  ∧ (∀ r ∈ db.selections, r.s_round = 4 →
      ∃ r3, SelectionDAO.find_by_round db 3 = some r3 ∧
        (selection_books db r.s_id).map Book.b_id =
          (selection_books db r3.s_id).map Book.b_id)
  ∧ (∀ v ∈ db.votes,
      (∃ r4, SelectionDAO.find_by_round db 4 = some r4 ∧ v.s_id = r4.s_id)
      ∧ (BookDAO.read db v.b_id).isSome)

/-! ### The service operations as `Except` computations

The Python DAO methods wrap their bodies in `try/except`; the service layer
calls them without any handler of its own.  The following `...E` versions
keep the exception flow explicit: the raw DAO bodies run inside `Except`
(throwing on the injected fault) and the only handlers are the DAO-level
ones (`SelectionDAO.create_caught`, `VoteDAO.record_final_votes_caught`).
That a whole service operation never evaluates to `Except.error` is then a
statement about the placement of those handlers. -/

/-- business/goncourt.py `_initialize_first_selection` with the exception
flow explicit. -/
def GoncourtService.initialize_first_selectionE (fault : Bool) (db : DB) :
    Except DbErr (DB × List String) := do
  match SelectionDAO.find_by_round db 1 with
  | some _ => pure (db, [])
  | none =>
      let all_books := BookDAO.read_all db
      let out ← SelectionDAO.create_caught db fault
        { s_id := 0, s_name := "PREMIÈRE SÉLECTION", s_round := 1,
          s_date := some 20250903, book := all_books }
      if out.res != 0 then
        pure (out.db, out.log ++ ["✓ Première sélection initialisée avec 15 livres"])
      else
        pure (out.db, out.log)

/-- business/goncourt.py `create_deuxieme_selection` with the exception flow
explicit. -/
def GoncourtService.create_deuxieme_selectionE (fault : Bool) (book_ids : List Nat)
    (db : DB) : Except DbErr SvcOut := do
  if book_ids.length != 8 then
    pure ⟨false, db, ["✗ La deuxième sélection doit contenir exactement 8 livres."]⟩
  else
    match collect_books db book_ids with
    | Except.error bid =>
        pure ⟨false, db, ["✗ Livre avec ID " ++ toString bid ++ " non trouvé."]⟩
    | Except.ok books =>
        match SelectionDAO.find_by_round db 1 with
        | none =>
            pure ⟨false, db,
              ["✗ La première sélection doit exister avant de créer la deuxième."]⟩
        | some premiere =>
            let premiere_book_ids :=
              (selection_books db premiere.s_id).map (fun b => b.b_id)
            match book_ids.find? (fun bid => !(premiere_book_ids.contains bid)) with
            | some bid =>
                pure ⟨false, db,
                  ["✗ Le livre avec ID " ++ toString bid ++
                    " n’est pas dans la première sélection."]⟩
            | none => do
                let out ← SelectionDAO.create_caught db fault
                  { s_id := 0, s_name := "DEUXIÈME SÉLECTION", s_round := 2,
                    s_date := some 20251007, book := books }
                if out.res != 0 then
                  pure ⟨true, out.db,
                    out.log ++ ["✓ Deuxième sélection créée avec " ++
                      toString books.length ++ " livres"]⟩
                else pure ⟨false, out.db, out.log⟩

/-- business/goncourt.py `create_troisieme_selection` with the exception
flow explicit. -/
def GoncourtService.create_troisieme_selectionE (fault : Bool) (book_ids : List Nat)
    (db : DB) : Except DbErr SvcOut := do
  if book_ids.length != 4 then
    pure ⟨false, db, ["✗ La troisième sélection doit contenir exactement 4 livres."]⟩
  else
    match collect_books db book_ids with
    | Except.error bid =>
        pure ⟨false, db, ["✗ Livre avec ID " ++ toString bid ++ " non trouvé."]⟩
    | Except.ok books =>
        match SelectionDAO.find_by_round db 2 with
        | none =>
            pure ⟨false, db,
              ["✗ La deuxième sélection doit exister avant de créer la troisième."]⟩
        | some deuxieme =>
            let deuxieme_book_ids :=
              (selection_books db deuxieme.s_id).map (fun b => b.b_id)
            match book_ids.find? (fun bid => !(deuxieme_book_ids.contains bid)) with
            | some bid =>
                pure ⟨false, db,
                  ["✗ Le livre avec ID " ++ toString bid ++
                    " n’est pas dans la deuxième sélection."]⟩
            | none => do
                let out ← SelectionDAO.create_caught db fault
                  { s_id := 0, s_name := "TROISIÈME SÉLECTION", s_round := 3,
                    s_date := some 20251028, book := books }
                if out.res != 0 then
                  pure ⟨true, out.db,
                    out.log ++ ["✓ Troisième sélection créée avec " ++
                      toString books.length ++ " livres"]⟩
                else pure ⟨false, out.db, out.log⟩

/-- business/goncourt.py `create_final_selection` with the exception flow
explicit. -/
def GoncourtService.create_final_selectionE (fault : Bool) (db : DB) :
    Except DbErr SvcOut := do
  match SelectionDAO.find_by_round db 3 with
  | none =>
      pure ⟨false, db,
        ["✗ La troisième sélection doit exister avant de créer la sélection finale."]⟩
  | some troisieme =>
      let tbooks := selection_books db troisieme.s_id
      if tbooks.length != 4 then
        pure ⟨false, db, ["✗ La troisième sélection doit contenir 4 livres."]⟩
      else do
        let out ← SelectionDAO.create_caught db fault
          { s_id := 0, s_name := "FINALISTES DU PRIX GONCOURT", s_round := 4,
            s_date := some 20251104, book := tbooks }
        if out.res != 0 then
          pure ⟨true, out.db, out.log ++ ["✓ Sélection finale créée avec les 4 finalistes"]⟩
        else pure ⟨false, out.db, out.log⟩

/-- business/goncourt.py `record_final_votes` with the exception flow
explicit. -/
def GoncourtService.record_final_votesE (fault : Bool)
    (votes_data : List (Nat × Int)) (today : Nat) (db : DB) :
    Except DbErr SvcOut := do
  match SelectionDAO.find_by_round db 4 with
  | none =>
      pure ⟨false, db,
        ["✗ La sélection finale doit exister avant d’enregistrer les votes."]⟩
  | some finale =>
      let finale_book_ids := (selection_books db finale.s_id).map (fun b => b.b_id)
      match (votes_data.map Prod.fst).find?
          (fun bid => !(finale_book_ids.contains bid)) with
      | some bid =>
          pure ⟨false, db,
            ["✗ Le livre avec ID " ++ toString bid ++
              " n’est pas dans la sélection finale."]⟩
      | none =>
          let total_votes := (votes_data.map Prod.snd).sum
          if total_votes != 10 then
            pure ⟨false, db,
              ["✗ Le total des votes doit être exactement 10 (nombre de membres du jury)."]⟩
          else do
            let out ← VoteDAO.record_final_votes_caught db fault votes_data
              finale.s_id today
            if out.res then
              pure ⟨true, out.db, out.log ++ ["✓ Votes enregistrés avec succès"]⟩
            else pure ⟨false, out.db, out.log⟩

/-! ### Concrete fixtures for witnesses and counterexamples -/

/-- A seeded catalog book (descriptive fields blank: they never influence
the workflow). -/
def mkBook (i : Nat) : Book :=
  { b_id := i, isbn := "", b_title := "" }

/-- A 15-book catalog with ids 1..15, the seeded starting pool. -/
def testCatalog : List Book :=
  (List.range 15).map (fun i => mkBook (i + 1))

/-- The store after the application constructor ran (round 1 created from
the catalog). -/
def dbRound1 : DB :=
  runOps (initialDB testCatalog) [Op.opInit false]

/-- The store after round 2 was created with works 1..8. -/
def dbRound2 : DB :=
  runOps dbRound1 [Op.opCreate2 false [1, 2, 3, 4, 5, 6, 7, 8]]

/-- The store after round 3 was created with works 1..4 and round 4 was
finalized from it. -/
def dbRound4 : DB :=
  runOps dbRound2 [Op.opCreate3 false [1, 2, 3, 4], Op.opFinal false]

/-! ### Effect lemmas for the DAO bodies -/

theorem add_book_to_selection_frame (d : DB) (b s : Nat) :
    ((SelectionDAO.add_book_to_selection d b s).2).books = d.books ∧
    ((SelectionDAO.add_book_to_selection d b s).2).selections = d.selections ∧
    ((SelectionDAO.add_book_to_selection d b s).2).votes = d.votes ∧
    ((SelectionDAO.add_book_to_selection d b s).2).nextSelId = d.nextSelId ∧
    ((SelectionDAO.add_book_to_selection d b s).2).nextVoteId = d.nextVoteId := by
  unfold SelectionDAO.add_book_to_selection
  split <;> simp

theorem add_books_fold_cons (nid : Nat) (b : Book) (bs : List Book) (d : DB) :
    add_books_fold nid (b :: bs) d =
      add_books_fold nid bs ((SelectionDAO.add_book_to_selection d b.b_id nid).2) := rfl

theorem add_books_fold_frame (nid : Nat) (bs : List Book) (d : DB) :
    (add_books_fold nid bs d).books = d.books ∧
    (add_books_fold nid bs d).selections = d.selections ∧
    (add_books_fold nid bs d).votes = d.votes ∧
    (add_books_fold nid bs d).nextSelId = d.nextSelId ∧
    (add_books_fold nid bs d).nextVoteId = d.nextVoteId := by
  induction bs generalizing d with
  | nil => simp [add_books_fold]
  | cons b bs ih =>
      rw [add_books_fold_cons]
      have h1 := add_book_to_selection_frame d b.b_id nid
      have h2 := ih ((SelectionDAO.add_book_to_selection d b.b_id nid).2)
      exact ⟨h2.1.trans h1.1, (h2.2.1).trans h1.2.1, (h2.2.2.1).trans h1.2.2.1,
        (h2.2.2.2.1).trans h1.2.2.2.1, (h2.2.2.2.2).trans h1.2.2.2.2⟩

theorem add_book_to_selection_of_mem (d : DB) (b s : Nat)
    (h : (b, s) ∈ d.book_selection) :
    (SelectionDAO.add_book_to_selection d b s).2 = d := by
  unfold SelectionDAO.add_book_to_selection
  rw [if_pos h]

theorem add_book_to_selection_of_not_mem (d : DB) (b s : Nat)
    (h : (b, s) ∉ d.book_selection) :
    (SelectionDAO.add_book_to_selection d b s).2 =
      { d with book_selection := d.book_selection ++ [(b, s)] } := by
  unfold SelectionDAO.add_book_to_selection
  rw [if_neg h]

theorem add_books_fold_junction_suffix (nid : Nat) (bs : List Book) (d : DB) :
    ∃ ps, (add_books_fold nid bs d).book_selection = d.book_selection ++ ps ∧
      ∀ p ∈ ps, p.2 = nid := by
  induction bs generalizing d with
  | nil => exact ⟨[], by simp [add_books_fold]⟩
  | cons b bs ih =>
      rw [add_books_fold_cons]
      by_cases hmem : (b.b_id, nid) ∈ d.book_selection
      · rw [add_book_to_selection_of_mem d b.b_id nid hmem]
        exact ih d
      · rw [add_book_to_selection_of_not_mem d b.b_id nid hmem]
        obtain ⟨ps, hps, hall⟩ :=
          ih { d with book_selection := d.book_selection ++ [(b.b_id, nid)] }
        refine ⟨(b.b_id, nid) :: ps, ?_, ?_⟩
        · rw [hps]; simp
        · intro p hp
          rcases List.mem_cons.1 hp with h | h
          · subst h; rfl
          · exact hall p h

theorem add_books_fold_junction_nodup (nid : Nat) (bs : List Book) (d : DB)
    (h : d.book_selection.Nodup) : (add_books_fold nid bs d).book_selection.Nodup := by
  induction bs generalizing d with
  | nil => simpa [add_books_fold] using h
  | cons b bs ih =>
      rw [add_books_fold_cons]
      by_cases hmem : (b.b_id, nid) ∈ d.book_selection
      · rw [add_book_to_selection_of_mem d b.b_id nid hmem]
        exact ih d h
      · rw [add_book_to_selection_of_not_mem d b.b_id nid hmem]
        apply ih
        simpa [List.nodup_append] using ⟨h, hmem⟩

theorem add_books_fold_junction_exact (nid : Nat) (bs : List Book) (d : DB)
    (hnodup : (bs.map Book.b_id).Nodup)
    (hfresh : ∀ b ∈ bs, (b.b_id, nid) ∉ d.book_selection) :
    (add_books_fold nid bs d).book_selection =
      d.book_selection ++ bs.map (fun b => (b.b_id, nid)) := by
  induction bs generalizing d with
  | nil => simp [add_books_fold]
  | cons b bs ih =>
      rw [add_books_fold_cons]
      have hb : (b.b_id, nid) ∉ d.book_selection := hfresh b (List.mem_cons_self b bs)
      rw [add_book_to_selection_of_not_mem d b.b_id nid hb]
      have hnodup' : (bs.map Book.b_id).Nodup := (List.nodup_cons.1 hnodup).2
      have hbnotin : b.b_id ∉ bs.map Book.b_id := (List.nodup_cons.1 hnodup).1
      have hfresh' : ∀ b' ∈ bs,
          (b'.b_id, nid) ∉ d.book_selection ++ [(b.b_id, nid)] := by
        intro b' hb' hmem
        rcases List.mem_append.1 hmem with h | h
        · exact hfresh b' (List.mem_cons_of_mem b hb') h
        · have : b'.b_id = b.b_id := by
            simpa using (List.mem_singleton.1 h)
          exact hbnotin (this ▸ List.mem_map_of_mem Book.b_id hb')
      rw [ih _ hnodup' hfresh']
      simp

theorem SelectionDAO.create_body_fst (db : DB) (obj : Selection) :
    (SelectionDAO.create_body db obj).1 = db.nextSelId := rfl

theorem SelectionDAO.create_body_books (db : DB) (obj : Selection) :
    (SelectionDAO.create_body db obj).2.books = db.books := by
  unfold SelectionDAO.create_body
  exact (add_books_fold_frame _ _ _).1

theorem SelectionDAO.create_body_votes (db : DB) (obj : Selection) :
    (SelectionDAO.create_body db obj).2.votes = db.votes := by
  unfold SelectionDAO.create_body
  exact (add_books_fold_frame _ _ _).2.2.1

theorem SelectionDAO.create_body_nextVoteId (db : DB) (obj : Selection) :
    (SelectionDAO.create_body db obj).2.nextVoteId = db.nextVoteId := by
  unfold SelectionDAO.create_body
  exact (add_books_fold_frame _ _ _).2.2.2.2

theorem SelectionDAO.create_body_nextSelId (db : DB) (obj : Selection) :
    (SelectionDAO.create_body db obj).2.nextSelId = db.nextSelId + 1 := by
  unfold SelectionDAO.create_body
  exact (add_books_fold_frame _ _ _).2.2.2.1

theorem SelectionDAO.create_body_selections (db : DB) (obj : Selection) :
    (SelectionDAO.create_body db obj).2.selections =
      db.selections ++
        [{ s_id := db.nextSelId, s_name := obj.s_name, s_round := obj.s_round,
           s_date := obj.s_date }] := by
  unfold SelectionDAO.create_body
  exact (add_books_fold_frame _ _ _).2.1

theorem BookDAO.read_create_body (db : DB) (obj : Selection) (pk : Nat) :
    BookDAO.read (SelectionDAO.create_body db obj).2 pk = BookDAO.read db pk := by
  unfold BookDAO.read
  rw [SelectionDAO.create_body_books]

theorem read_eq_some_self (db : DB) (b : Book)
    (hN : (db.books.map Book.b_id).Nodup) (hb : b ∈ db.books) :
    BookDAO.read db b.b_id = some b := by
  unfold BookDAO.read
  have hsome : (db.books.find? (fun x => x.b_id == b.b_id)).isSome := by
    rw [List.find?_isSome]
    exact ⟨b, hb, by simp⟩
  obtain ⟨x, hx⟩ := Option.isSome_iff_exists.1 hsome
  have hxmem : x ∈ db.books := List.mem_of_find?_eq_some hx
  have hxid : x.b_id = b.b_id := by
    have := List.find?_some hx
    simpa using this
  have : x = b := List.inj_on_of_nodup_map hN hxmem hb hxid
  rw [hx, this]

theorem read_mem_books (db : DB) (i : Nat) (b : Book)
    (h : BookDAO.read db i = some b) : b ∈ db.books ∧ b.b_id = i := by
  unfold BookDAO.read at h
  refine ⟨List.mem_of_find?_eq_some h, ?_⟩
  have := List.find?_some h
  simpa using this

theorem find_by_round_create_body (db : DB) (obj : Selection) (n : Nat) :
    SelectionDAO.find_by_round (SelectionDAO.create_body db obj).2 n =
      (SelectionDAO.find_by_round db n).or
        (if obj.s_round == n then
          some { s_id := db.nextSelId, s_name := obj.s_name, s_round := obj.s_round,
                 s_date := obj.s_date }
         else none) := by
  unfold SelectionDAO.find_by_round
  rw [SelectionDAO.create_body_selections, List.find?_append]
  congr 1
  simp only [List.find?_singleton]

theorem filterMap_eq_self_of_some {α : Type} (g : α → Option α) :
    ∀ l : List α, (∀ b ∈ l, g b = some b) → l.filterMap g = l
  | [], _ => rfl
  | b :: bs, h => by
      rw [List.filterMap_cons, h b (List.mem_cons_self b bs),
        filterMap_eq_self_of_some g bs (fun x hx => h x (List.mem_cons_of_mem b hx))]

theorem selection_books_create_body_frozen (db : DB) (obj : Selection) (sid : Nat)
    (hsid : sid ≠ db.nextSelId) :
    selection_books (SelectionDAO.create_body db obj).2 sid = selection_books db sid := by
  unfold selection_books BookDAO.get_books_by_selection
  unfold SelectionDAO.create_body
  obtain ⟨ps, hps, hall⟩ := add_books_fold_junction_suffix db.nextSelId obj.book
    { db with
      selections := db.selections ++
        [{ s_id := db.nextSelId, s_name := obj.s_name, s_round := obj.s_round,
           s_date := obj.s_date }],
      nextSelId := db.nextSelId + 1 }
  simp only at hps
  rw [hps]
  have hbooks := SelectionDAO.create_body_books db obj
  unfold SelectionDAO.create_body at hbooks
  simp only at hbooks
  rw [List.filter_append]
  have hnil : ps.filter (fun p => p.2 == sid) = [] := by
    rw [List.filter_eq_nil_iff]
    intro p hp
    have := hall p hp
    simp [this, Ne.symm hsid]
  rw [hnil, List.append_nil]
  apply List.filterMap_congr
  intro p hp
  unfold BookDAO.read
  rw [hbooks]

theorem selection_books_create_body_new (db : DB) (obj : Selection)
    (hN : (obj.book.map Book.b_id).Nodup)
    (hfresh : ∀ p ∈ db.book_selection, p.2 < db.nextSelId)
    (hres : ∀ b ∈ obj.book, BookDAO.read db b.b_id = some b) :
    selection_books (SelectionDAO.create_body db obj).2 db.nextSelId = obj.book := by
  unfold selection_books BookDAO.get_books_by_selection
  have hjun : (SelectionDAO.create_body db obj).2.book_selection =
      db.book_selection ++ obj.book.map (fun b => (b.b_id, db.nextSelId)) := by
    unfold SelectionDAO.create_body
    rw [add_books_fold_junction_exact db.nextSelId obj.book _ hN]
    intro b _ hmem
    simp only [List.mem_cons] at hmem
    exact absurd ((hfresh _ hmem).trans_le (Nat.le_refl _)) (lt_irrefl _)
  rw [hjun, List.filter_append]
  have h1 : db.book_selection.filter (fun p => p.2 == db.nextSelId) = [] := by
    rw [List.filter_eq_nil_iff]
    intro p hp
    have := hfresh p hp
    simp
    omega
  have h2 : (obj.book.map (fun b => (b.b_id, db.nextSelId))).filter
      (fun p => p.2 == db.nextSelId) = obj.book.map (fun b => (b.b_id, db.nextSelId)) := by
    rw [List.filter_eq_self]
    intro p hp
    obtain ⟨b, _, rfl⟩ := List.mem_map.1 hp
    simp
  rw [h1, h2, List.nil_append, List.filterMap_map]
  apply filterMap_eq_self_of_some
  intro b hb
  simp only [Function.comp]
  rw [BookDAO.read_create_body]
  exact hres b hb

theorem insert_votes_fold_cons (sid vd : Nat) (p : Nat × Int)
    (data : List (Nat × Int)) (d : DB) :
    insert_votes_fold sid vd (p :: data) d =
      insert_votes_fold sid vd data
        { d with
          votes := d.votes ++
            [{ v_id := d.nextVoteId, v_number_vote := p.2, v_date_vote := vd,
               b_id := p.1, s_id := sid }],
          nextVoteId := d.nextVoteId + 1 } := rfl

theorem insert_votes_fold_frame (sid vd : Nat) (data : List (Nat × Int)) (d : DB) :
    (insert_votes_fold sid vd data d).books = d.books ∧
    (insert_votes_fold sid vd data d).selections = d.selections ∧
    (insert_votes_fold sid vd data d).book_selection = d.book_selection ∧
    (insert_votes_fold sid vd data d).nextSelId = d.nextSelId := by
  induction data generalizing d with
  | nil => simp [insert_votes_fold]
  | cons p data ih =>
      rw [insert_votes_fold_cons]
      exact ih _

theorem insert_votes_fold_votes (sid vd : Nat) (data : List (Nat × Int)) (d : DB) :
    ∃ rows, (insert_votes_fold sid vd data d).votes = d.votes ++ rows ∧
      rows.map (fun v => (v.b_id, v.v_number_vote)) = data ∧
      ∀ v ∈ rows, v.s_id = sid ∧ v.v_date_vote = vd := by
  induction data generalizing d with
  | nil => exact ⟨[], by simp [insert_votes_fold]⟩
  | cons p data ih =>
      rw [insert_votes_fold_cons]
      obtain ⟨rows, hrows, hmap, hall⟩ := ih
        { d with
          votes := d.votes ++
            [{ v_id := d.nextVoteId, v_number_vote := p.2, v_date_vote := vd,
               b_id := p.1, s_id := sid }],
          nextVoteId := d.nextVoteId + 1 }
      refine ⟨{ v_id := d.nextVoteId, v_number_vote := p.2, v_date_vote := vd,
                b_id := p.1, s_id := sid } :: rows, ?_, ?_, ?_⟩
      · rw [hrows]; simp
      · simp [hmap]
      · intro v hv
        rcases List.mem_cons.1 hv with h | h
        · subst h; exact ⟨rfl, rfl⟩
        · exact hall v h

theorem record_body_frame (db : DB) (data : List (Nat × Int)) (sid vd : Nat) :
    (VoteDAO.record_final_votes_body db data sid vd).books = db.books ∧
    (VoteDAO.record_final_votes_body db data sid vd).selections = db.selections ∧
    (VoteDAO.record_final_votes_body db data sid vd).book_selection = db.book_selection ∧
    (VoteDAO.record_final_votes_body db data sid vd).nextSelId = db.nextSelId := by
  unfold VoteDAO.record_final_votes_body
  exact insert_votes_fold_frame sid vd data _

theorem record_body_votes (db : DB) (data : List (Nat × Int)) (sid vd : Nat) :
    ∃ rows, (VoteDAO.record_final_votes_body db data sid vd).votes =
        db.votes.filter (fun v => v.s_id != sid) ++ rows ∧
      rows.map (fun v => (v.b_id, v.v_number_vote)) = data ∧
      ∀ v ∈ rows, v.s_id = sid ∧ v.v_date_vote = vd := by
  unfold VoteDAO.record_final_votes_body
  obtain ⟨rows, hrows, hmap, hall⟩ := insert_votes_fold_votes sid vd data
    { db with votes := db.votes.filter (fun v => v.s_id != sid) }
  exact ⟨rows, by simpa using hrows, hmap, hall⟩

theorem collect_books_ok_of_resolvable (db : DB) :
    ∀ ids : List Nat, (∀ i ∈ ids, (BookDAO.read db i).isSome) →
      ∃ bs, collect_books db ids = Except.ok bs ∧
        List.Forall₂ (fun i b => BookDAO.read db i = some b) ids bs
  | [], _ => ⟨[], rfl, List.Forall₂.nil⟩
  | i :: ids, h => by
      obtain ⟨b, hb⟩ := Option.isSome_iff_exists.1 (h i (List.mem_cons_self i ids))
      obtain ⟨bs, hbs, hf⟩ := collect_books_ok_of_resolvable db ids
        (fun j hj => h j (List.mem_cons_of_mem i hj))
      refine ⟨b :: bs, ?_, List.Forall₂.cons hb hf⟩
      unfold collect_books
      rw [hb, hbs]
      rfl

theorem collect_books_error_unresolvable (db : DB) :
    ∀ (ids : List Nat) (i : Nat), collect_books db ids = Except.error i →
      ∃ j ∈ ids, BookDAO.read db j = none
  | [], i, h => by simp [collect_books] at h
  | j :: ids, i, h => by
      unfold collect_books at h
      cases hr : BookDAO.read db j with
      | none => exact ⟨j, List.mem_cons_self j ids, hr⟩
      | some b =>
          rw [hr] at h
          cases hc : collect_books db ids with
          | ok bs => rw [hc] at h; simp [Except.map] at h
          | error e =>
              rw [hc] at h
              obtain ⟨k, hk, hnone⟩ := collect_books_error_unresolvable db ids e hc
              exact ⟨k, List.mem_cons_of_mem j hk, hnone⟩

theorem collect_books_ok_forall2 (db : DB) :
    ∀ (ids : List Nat) (bs : List Book), collect_books db ids = Except.ok bs →
      List.Forall₂ (fun i b => BookDAO.read db i = some b) ids bs
  | [], bs, h => by
      simp only [collect_books] at h
      cases h
      exact List.Forall₂.nil
  | i :: ids, bs, h => by
      unfold collect_books at h
      cases hr : BookDAO.read db i with
      | none => rw [hr] at h; cases h
      | some b =>
          rw [hr] at h
          cases hc : collect_books db ids with
          | error e => rw [hc] at h; cases h
          | ok bs' =>
              rw [hc] at h
              simp only [Except.map] at h
              cases h
              exact List.Forall₂.cons hr (collect_books_ok_forall2 db ids bs' hc)

@[simp] theorem SvcOut.ok_mk (b : Bool) (d : DB) (l : List String) :
    (SvcOut.mk b d l).ok = b := rfl

@[simp] theorem SvcOut.db_mk (b : Bool) (d : DB) (l : List String) :
    (SvcOut.mk b d l).db = d := rfl

@[simp] theorem SvcOut.log_mk (b : Bool) (d : DB) (l : List String) :
    (SvcOut.mk b d l).log = l := rfl

@[simp] theorem DaoOut.res_mk {α : Type} (r : α) (d : DB) (l : List String) :
    (DaoOut.mk r d l).res = r := rfl

@[simp] theorem DaoOut.db_out_mk {α : Type} (r : α) (d : DB) (l : List String) :
    (DaoOut.mk r d l).db = d := rfl

@[simp] theorem DaoOut.log_out_mk {α : Type} (r : α) (d : DB) (l : List String) :
    (DaoOut.mk r d l).log = l := rfl

theorem forall2_read_isSome (db : DB) :
    ∀ {ids : List Nat} {bs : List Book},
      List.Forall₂ (fun i b => BookDAO.read db i = some b) ids bs →
      ∀ i ∈ ids, (BookDAO.read db i).isSome := by
  intro ids bs h
  induction h with
  | nil => intro i hi; cases hi
  | cons hr _ ih =>
      intro i hi
      rcases List.mem_cons.1 hi with h | h
      · subst h; simp [hr]
      · exact ih i h

theorem create_deuxieme_ok_iff (ids : List Nat) (db : DB) (hpos : 0 < db.nextSelId) :
    (GoncourtService.create_deuxieme_selection false ids db).ok = true ↔
      (ids.length = 8 ∧ (∀ i ∈ ids, (BookDAO.read db i).isSome) ∧
        (SelectionDAO.find_by_round db 1).isSome ∧
        ∀ i ∈ ids, i ∈ roundWorkIds db 1) := by
  unfold GoncourtService.create_deuxieme_selection
  by_cases hlen : ids.length = 8
  · rw [if_neg (by simp [hlen])]
    cases hcol : collect_books db ids with
    | error e =>
        obtain ⟨j, hj, hnone⟩ := collect_books_error_unresolvable db ids e hcol
        simp only [SvcOut.ok_mk]
        constructor
        · intro h; cases h
        · rintro ⟨-, hres, -, -⟩
          have := hres j hj
          rw [hnone] at this
          cases this
    | ok bs =>
        have hforall := collect_books_ok_forall2 db ids bs hcol
        have hres : ∀ i ∈ ids, (BookDAO.read db i).isSome :=
          forall2_read_isSome db hforall
        cases hfind : SelectionDAO.find_by_round db 1 with
        | none =>
            simp only [SvcOut.ok_mk]
            constructor
            · intro h; cases h
            · rintro ⟨-, -, hsome, -⟩
              simp at hsome
        | some premiere =>
            by_cases hmemall : ∀ i ∈ ids,
                i ∈ (selection_books db premiere.s_id).map (fun b => b.b_id)
            · have hbad : ids.find?
                  (fun bid =>
                    !((selection_books db premiere.s_id).map (fun b => b.b_id)).contains bid)
                  = none := by
                rw [List.find?_eq_none]
                intro x hx
                simp [List.contains, List.elem_iff]
                simpa using hmemall x hx
              have hne : db.nextSelId ≠ 0 := Nat.pos_iff_ne_zero.1 hpos
              simp only [hbad, SelectionDAO.create, SelectionDAO.create_body_fst,
                Bool.false_eq_true, if_false, DaoOut.res_mk, SvcOut.ok_mk]
              rw [if_pos (show (db.nextSelId != 0) = true by simpa using hne)]
              simp only [SvcOut.ok_mk, true_iff]
              refine ⟨hlen, hres, by simp, ?_⟩
              intro i hi
              simp only [roundWorkIds, hfind]
              simpa using hmemall i hi
            · push_neg at hmemall
              obtain ⟨j, hj, hnotin⟩ := hmemall
              have hsome : (ids.find?
                  (fun bid =>
                    !((selection_books db premiere.s_id).map (fun b => b.b_id)).contains bid)).isSome := by
                rw [List.find?_isSome]
                refine ⟨j, hj, ?_⟩
                simp [List.contains, List.elem_iff]
                intro x hx hxj
                exact hnotin (hxj ▸ List.mem_map_of_mem (fun b => b.b_id) hx)
              obtain ⟨bid, hbad⟩ := Option.isSome_iff_exists.1 hsome
              simp only [hbad, SvcOut.ok_mk]
              constructor
              · intro h; cases h
              · rintro ⟨-, -, -, hall⟩
                have hprop := List.find?_some hbad
                have hin := List.mem_of_find?_eq_some hbad
                have hmemw := hall bid hin
                simp only [roundWorkIds, hfind] at hmemw
                simp [List.contains, List.elem_iff] at hprop
                obtain ⟨b, hbmem, hbid⟩ := List.mem_map.1 (by simpa using hmemw)
                exact (hprop b hbmem hbid).elim
  · rw [if_pos (by simpa using hlen)]
    simp only [SvcOut.ok_mk]
    constructor
    · intro h; cases h
    · rintro ⟨h8, -⟩; exact absurd h8 hlen

theorem create_troisieme_ok_iff (ids : List Nat) (db : DB) (hpos : 0 < db.nextSelId) :
    (GoncourtService.create_troisieme_selection false ids db).ok = true ↔
      (ids.length = 4 ∧ (∀ i ∈ ids, (BookDAO.read db i).isSome) ∧
        (SelectionDAO.find_by_round db 2).isSome ∧
        ∀ i ∈ ids, i ∈ roundWorkIds db 2) := by
  unfold GoncourtService.create_troisieme_selection
  by_cases hlen : ids.length = 4
  · rw [if_neg (by simp [hlen])]
    cases hcol : collect_books db ids with
    | error e =>
        obtain ⟨j, hj, hnone⟩ := collect_books_error_unresolvable db ids e hcol
        simp only [SvcOut.ok_mk]
        constructor
        · intro h; cases h
        · rintro ⟨-, hres, -, -⟩
          have := hres j hj
          rw [hnone] at this
          cases this
    | ok bs =>
        have hforall := collect_books_ok_forall2 db ids bs hcol
        have hres : ∀ i ∈ ids, (BookDAO.read db i).isSome :=
          forall2_read_isSome db hforall
        cases hfind : SelectionDAO.find_by_round db 2 with
        | none =>
            simp only [SvcOut.ok_mk]
            constructor
            · intro h; cases h
            · rintro ⟨-, -, hsome, -⟩
              simp at hsome
        | some deuxieme =>
            by_cases hmemall : ∀ i ∈ ids,
                i ∈ (selection_books db deuxieme.s_id).map (fun b => b.b_id)
            · have hbad : ids.find?
                  (fun bid =>
                    !((selection_books db deuxieme.s_id).map (fun b => b.b_id)).contains bid)
                  = none := by
                rw [List.find?_eq_none]
                intro x hx
                simp [List.contains, List.elem_iff]
                simpa using hmemall x hx
              have hne : db.nextSelId ≠ 0 := Nat.pos_iff_ne_zero.1 hpos
              simp only [hbad, SelectionDAO.create, SelectionDAO.create_body_fst,
                Bool.false_eq_true, if_false, DaoOut.res_mk, SvcOut.ok_mk]
              rw [if_pos (show (db.nextSelId != 0) = true by simpa using hne)]
              simp only [SvcOut.ok_mk, true_iff]
              refine ⟨hlen, hres, by simp, ?_⟩
              intro i hi
              simp only [roundWorkIds, hfind]
              simpa using hmemall i hi
            · push_neg at hmemall
              obtain ⟨j, hj, hnotin⟩ := hmemall
              have hsome : (ids.find?
                  (fun bid =>
                    !((selection_books db deuxieme.s_id).map (fun b => b.b_id)).contains bid)).isSome := by
                rw [List.find?_isSome]
                refine ⟨j, hj, ?_⟩
                simp [List.contains, List.elem_iff]
                intro x hx hxj
                exact hnotin (hxj ▸ List.mem_map_of_mem (fun b => b.b_id) hx)
              obtain ⟨bid, hbad⟩ := Option.isSome_iff_exists.1 hsome
              simp only [hbad, SvcOut.ok_mk]
              constructor
              · intro h; cases h
              · rintro ⟨-, -, -, hall⟩
                have hprop := List.find?_some hbad
                have hin := List.mem_of_find?_eq_some hbad
                have hmemw := hall bid hin
                simp only [roundWorkIds, hfind] at hmemw
                simp [List.contains, List.elem_iff] at hprop
                obtain ⟨b, hbmem, hbid⟩ := List.mem_map.1 (by simpa using hmemw)
                exact (hprop b hbmem hbid).elim
  · rw [if_pos (by simpa using hlen)]
    simp only [SvcOut.ok_mk]
    constructor
    · intro h; cases h
    · rintro ⟨h8, -⟩; exact absurd h8 hlen

theorem create_final_ok_iff (db : DB) (hpos : 0 < db.nextSelId) :
    (GoncourtService.create_final_selection false db).ok = true ↔
      ∃ r3, SelectionDAO.find_by_round db 3 = some r3 ∧
        (selection_books db r3.s_id).length = 4 := by
  unfold GoncourtService.create_final_selection
  cases hfind : SelectionDAO.find_by_round db 3 with
  | none =>
      simp only [SvcOut.ok_mk]
      constructor
      · intro h; cases h
      · rintro ⟨r3, hr3, -⟩; cases hr3
  | some troisieme =>
      by_cases hl : (selection_books db troisieme.s_id).length = 4
      · have hne : db.nextSelId ≠ 0 := Nat.pos_iff_ne_zero.1 hpos
        dsimp only
        rw [if_neg (by simp [hl])]
        simp only [SelectionDAO.create, Bool.false_eq_true, if_false,
          SelectionDAO.create_body_fst, DaoOut.res_mk]
        rw [if_pos (show (db.nextSelId != 0) = true by simpa using hne)]
        simp only [SvcOut.ok_mk, true_iff]
        exact ⟨troisieme, rfl, hl⟩
      · dsimp only
        rw [if_pos (by simpa using hl)]
        simp only [SvcOut.ok_mk]
        constructor
        · intro h; cases h
        · rintro ⟨r3, hr3, hlen⟩
          cases hr3
          exact absurd hlen hl

theorem record_ok_iff (votes_data : List (Nat × Int)) (today : Nat) (db : DB) :
    (GoncourtService.record_final_votes false votes_data today db).ok = true ↔
      ((SelectionDAO.find_by_round db 4).isSome ∧
        (∀ k ∈ votes_data.map Prod.fst, k ∈ roundWorkIds db 4) ∧
        (votes_data.map Prod.snd).sum = 10) := by
  unfold GoncourtService.record_final_votes
  cases hfind : SelectionDAO.find_by_round db 4 with
  | none =>
      simp only [SvcOut.ok_mk]
      constructor
      · intro h; cases h
      · rintro ⟨hsome, -, -⟩; simp at hsome
  | some finale =>
      by_cases hmemall : ∀ k ∈ votes_data.map Prod.fst,
          k ∈ (selection_books db finale.s_id).map (fun b => b.b_id)
      · have hbad : (votes_data.map Prod.fst).find?
            (fun bid =>
              !((selection_books db finale.s_id).map (fun b => b.b_id)).contains bid)
            = none := by
          rw [List.find?_eq_none]
          intro x hx
          simp [List.contains, List.elem_iff]
          simpa using hmemall x hx
        simp only [hbad]
        by_cases hsum : (votes_data.map Prod.snd).sum = 10
        · rw [if_neg (by simp [hsum])]
          simp only [VoteDAO.record_final_votes, Bool.false_eq_true, if_false,
            DaoOut.res_mk, if_true]
          simp only [SvcOut.ok_mk, true_iff]
          refine ⟨by simp, ?_, hsum⟩
          intro k hk
          simp only [roundWorkIds, hfind]
          simpa using hmemall k hk
        · rw [if_pos (by simpa using hsum)]
          simp only [SvcOut.ok_mk]
          constructor
          · intro h; cases h
          · rintro ⟨-, -, h10⟩; exact absurd h10 hsum
      · push_neg at hmemall
        obtain ⟨j, hj, hnotin⟩ := hmemall
        have hsome : ((votes_data.map Prod.fst).find?
            (fun bid =>
              !((selection_books db finale.s_id).map (fun b => b.b_id)).contains bid)).isSome := by
          rw [List.find?_isSome]
          refine ⟨j, hj, ?_⟩
          simp [List.contains, List.elem_iff]
          intro x hx hxj
          exact hnotin (hxj ▸ List.mem_map_of_mem (fun b => b.b_id) hx)
        obtain ⟨bid, hbad⟩ := Option.isSome_iff_exists.1 hsome
        simp only [hbad, SvcOut.ok_mk]
        constructor
        · intro h; cases h
        · rintro ⟨-, hall, -⟩
          have hprop := List.find?_some hbad
          have hin := List.mem_of_find?_eq_some hbad
          have hmemw := hall bid hin
          simp only [roundWorkIds, hfind] at hmemw
          simp [List.contains, List.elem_iff] at hprop
          obtain ⟨b, hbmem, hbid⟩ := List.mem_map.1 (by simpa using hmemw)
          exact (hprop b hbmem hbid).elim

theorem create_deuxieme_success_db (ids : List Nat) (db : DB)
    (hpos : 0 < db.nextSelId)
    (h : (GoncourtService.create_deuxieme_selection false ids db).ok = true) :
    ∃ bs, collect_books db ids = Except.ok bs ∧
      List.Forall₂ (fun i b => BookDAO.read db i = some b) ids bs ∧
      (GoncourtService.create_deuxieme_selection false ids db).db =
        (SelectionDAO.create_body db
          { s_id := 0, s_name := "DEUXIÈME SÉLECTION", s_round := 2,
            s_date := some 20251007, book := bs }).2 := by
  obtain ⟨h8, hres, hfindsome, hmem⟩ := (create_deuxieme_ok_iff ids db hpos).1 h
  obtain ⟨bs, hcol, hforall⟩ := collect_books_ok_of_resolvable db ids hres
  obtain ⟨premiere, hfind⟩ := Option.isSome_iff_exists.1 hfindsome
  refine ⟨bs, hcol, hforall, ?_⟩
  unfold GoncourtService.create_deuxieme_selection
  rw [if_neg (by simp [h8])]
  simp only [hcol, hfind]
  have hbad : ids.find?
      (fun bid =>
        !((selection_books db premiere.s_id).map (fun b => b.b_id)).contains bid)
      = none := by
    rw [List.find?_eq_none]
    intro x hx
    simp [List.contains, List.elem_iff]
    have := hmem x hx
    simp only [roundWorkIds, hfind] at this
    simpa using this
  simp only [hbad, SelectionDAO.create, Bool.false_eq_true, if_false,
    SelectionDAO.create_body_fst, DaoOut.res_mk]
  rw [if_pos (show (db.nextSelId != 0) = true by
    simpa using Nat.pos_iff_ne_zero.1 hpos)]

theorem create_troisieme_success_db (ids : List Nat) (db : DB)
    (hpos : 0 < db.nextSelId)
    (h : (GoncourtService.create_troisieme_selection false ids db).ok = true) :
    ∃ bs, collect_books db ids = Except.ok bs ∧
      List.Forall₂ (fun i b => BookDAO.read db i = some b) ids bs ∧
      (GoncourtService.create_troisieme_selection false ids db).db =
        (SelectionDAO.create_body db
          { s_id := 0, s_name := "TROISIÈME SÉLECTION", s_round := 3,
            s_date := some 20251028, book := bs }).2 := by
  obtain ⟨h4, hres, hfindsome, hmem⟩ := (create_troisieme_ok_iff ids db hpos).1 h
  obtain ⟨bs, hcol, hforall⟩ := collect_books_ok_of_resolvable db ids hres
  obtain ⟨deuxieme, hfind⟩ := Option.isSome_iff_exists.1 hfindsome
  refine ⟨bs, hcol, hforall, ?_⟩
  unfold GoncourtService.create_troisieme_selection
  rw [if_neg (by simp [h4])]
  simp only [hcol, hfind]
  have hbad : ids.find?
      (fun bid =>
        !((selection_books db deuxieme.s_id).map (fun b => b.b_id)).contains bid)
      = none := by
    rw [List.find?_eq_none]
    intro x hx
    simp [List.contains, List.elem_iff]
    have := hmem x hx
    simp only [roundWorkIds, hfind] at this
    simpa using this
  simp only [hbad, SelectionDAO.create, Bool.false_eq_true, if_false,
    SelectionDAO.create_body_fst, DaoOut.res_mk]
  rw [if_pos (show (db.nextSelId != 0) = true by
    simpa using Nat.pos_iff_ne_zero.1 hpos)]

theorem create_final_success_db (db : DB) (hpos : 0 < db.nextSelId)
    (h : (GoncourtService.create_final_selection false db).ok = true) :
    ∃ r3, SelectionDAO.find_by_round db 3 = some r3 ∧
      (selection_books db r3.s_id).length = 4 ∧
      (GoncourtService.create_final_selection false db).db =
        (SelectionDAO.create_body db
          { s_id := 0, s_name := "FINALISTES DU PRIX GONCOURT", s_round := 4,
            s_date := some 20251104, book := selection_books db r3.s_id }).2 := by
  obtain ⟨r3, hfind, hl⟩ := (create_final_ok_iff db hpos).1 h
  refine ⟨r3, hfind, hl, ?_⟩
  unfold GoncourtService.create_final_selection
  simp only [hfind]
  rw [if_neg (by simp [hl])]
  simp only [SelectionDAO.create, Bool.false_eq_true, if_false,
    SelectionDAO.create_body_fst, DaoOut.res_mk]
  rw [if_pos (show (db.nextSelId != 0) = true by
    simpa using Nat.pos_iff_ne_zero.1 hpos)]

theorem record_success_db (votes_data : List (Nat × Int)) (today : Nat) (db : DB)
    (h : (GoncourtService.record_final_votes false votes_data today db).ok = true) :
    ∃ r4, SelectionDAO.find_by_round db 4 = some r4 ∧
      (GoncourtService.record_final_votes false votes_data today db).db =
        VoteDAO.record_final_votes_body db votes_data r4.s_id today := by
  obtain ⟨hfindsome, hmem, hsum⟩ := (record_ok_iff votes_data today db).1 h
  obtain ⟨finale, hfind⟩ := Option.isSome_iff_exists.1 hfindsome
  refine ⟨finale, hfind, ?_⟩
  unfold GoncourtService.record_final_votes
  simp only [hfind]
  have hbad : (votes_data.map Prod.fst).find?
      (fun bid =>
        !((selection_books db finale.s_id).map (fun b => b.b_id)).contains bid)
      = none := by
    rw [List.find?_eq_none]
    intro x hx
    simp [List.contains, List.elem_iff]
    have := hmem x hx
    simp only [roundWorkIds, hfind] at this
    simpa using this
  simp only [hbad]
  rw [if_neg (by simp [hsum])]
  simp only [VoteDAO.record_final_votes, Bool.false_eq_true, if_false,
    DaoOut.res_mk, if_true]

theorem record_fail_db (fault : Bool) (votes_data : List (Nat × Int)) (today : Nat)
    (db : DB) :
    (GoncourtService.record_final_votes fault votes_data today db).ok = false →
    (GoncourtService.record_final_votes fault votes_data today db).db = db := by
  unfold GoncourtService.record_final_votes
  split
  · intro _; rfl
  · dsimp only
    split
    · intro _; rfl
    · split
      · intro _; rfl
      · cases fault
        · simp only [VoteDAO.record_final_votes, Bool.false_eq_true, if_false,
            DaoOut.res_mk, if_true]
          intro h; cases h
        · simp only [VoteDAO.record_final_votes, if_true, DaoOut.res_mk,
            Bool.false_eq_true, if_false]
          intro _; trivial

theorem create_deuxieme_fail_db (fault : Bool) (ids : List Nat) (db : DB)
    (hpos : 0 < db.nextSelId) :
    (GoncourtService.create_deuxieme_selection fault ids db).ok = false →
    (GoncourtService.create_deuxieme_selection fault ids db).db = db := by
  unfold GoncourtService.create_deuxieme_selection
  split
  · intro _; rfl
  · split
    · intro _; rfl
    · split
      · intro _; rfl
      · dsimp only
        split
        · intro _; rfl
        · cases fault
          · simp only [SelectionDAO.create, Bool.false_eq_true, if_false,
              SelectionDAO.create_body_fst, DaoOut.res_mk]
            rw [if_pos (show (db.nextSelId != 0) = true by
              simpa using Nat.pos_iff_ne_zero.1 hpos)]
            intro h; cases h
          · intro _
            simp [SelectionDAO.create]

theorem create_troisieme_fail_db (fault : Bool) (ids : List Nat) (db : DB)
    (hpos : 0 < db.nextSelId) :
    (GoncourtService.create_troisieme_selection fault ids db).ok = false →
    (GoncourtService.create_troisieme_selection fault ids db).db = db := by
  unfold GoncourtService.create_troisieme_selection
  split
  · intro _; rfl
  · split
    · intro _; rfl
    · split
      · intro _; rfl
      · dsimp only
        split
        · intro _; rfl
        · cases fault
          · simp only [SelectionDAO.create, Bool.false_eq_true, if_false,
              SelectionDAO.create_body_fst, DaoOut.res_mk]
            rw [if_pos (show (db.nextSelId != 0) = true by
              simpa using Nat.pos_iff_ne_zero.1 hpos)]
            intro h; cases h
          · intro _
            simp [SelectionDAO.create]

theorem create_final_fail_db (fault : Bool) (db : DB) (hpos : 0 < db.nextSelId) :
    (GoncourtService.create_final_selection fault db).ok = false →
    (GoncourtService.create_final_selection fault db).db = db := by
  unfold GoncourtService.create_final_selection
  split
  · intro _; rfl
  · dsimp only
    split
    · intro _; rfl
    · cases fault
      · simp only [SelectionDAO.create, Bool.false_eq_true, if_false,
          SelectionDAO.create_body_fst, DaoOut.res_mk]
        rw [if_pos (show (db.nextSelId != 0) = true by
          simpa using Nat.pos_iff_ne_zero.1 hpos)]
        intro h; cases h
      · intro _
        simp [SelectionDAO.create]

theorem create_final_no_round3 (fault : Bool) (db : DB)
    (hf : SelectionDAO.find_by_round db 3 = none) :
    GoncourtService.create_final_selection fault db =
      ⟨false, db,
        ["✗ La troisième sélection doit exister avant de créer la sélection finale."]⟩ := by
  unfold GoncourtService.create_final_selection
  simp only [hf]

theorem init_of_round1_exists (fault : Bool) (db : DB)
    (h : (SelectionDAO.find_by_round db 1).isSome) :
    GoncourtService.initialize_first_selection fault db = (db, []) := by
  obtain ⟨r, hr⟩ := Option.isSome_iff_exists.1 h
  unfold GoncourtService.initialize_first_selection
  simp only [hr]

theorem init_none_db (db : DB) (hf : SelectionDAO.find_by_round db 1 = none) :
    (GoncourtService.initialize_first_selection false db).1 =
      (SelectionDAO.create_body db
        { s_id := 0, s_name := "PREMIÈRE SÉLECTION", s_round := 1,
          s_date := some 20250903, book := db.books }).2 := by
  unfold GoncourtService.initialize_first_selection BookDAO.read_all
  simp only [hf]
  simp only [SelectionDAO.create, Bool.false_eq_true, if_false,
    SelectionDAO.create_body_fst, DaoOut.res_mk]
  split <;> rfl

theorem init_fault_db (db : DB) :
    (GoncourtService.initialize_first_selection true db).1 = db := by
  unfold GoncourtService.initialize_first_selection
  split
  · rfl
  · simp [SelectionDAO.create]

theorem find_by_round_record_db (fault : Bool) (votes_data : List (Nat × Int))
    (today : Nat) (db : DB) (n : Nat) :
    SelectionDAO.find_by_round
        (GoncourtService.record_final_votes fault votes_data today db).db n =
      SelectionDAO.find_by_round db n := by
  unfold GoncourtService.record_final_votes
  split
  · rfl
  · dsimp only
    split
    · rfl
    · split
      · rfl
      · cases fault
        · simp only [VoteDAO.record_final_votes, Bool.false_eq_true, if_false,
            DaoOut.res_mk, if_true, SvcOut.db_mk]
          unfold SelectionDAO.find_by_round
          rw [(record_body_frame db votes_data _ today).2.1]
        · simp [SelectionDAO.find_by_round, VoteDAO.record_final_votes]

theorem find_by_round_create2_ne (fault : Bool) (ids : List Nat) (db : DB) (n : Nat)
    (hn : n ≠ 2) :
    SelectionDAO.find_by_round
        (GoncourtService.create_deuxieme_selection fault ids db).db n =
      SelectionDAO.find_by_round db n := by
  unfold GoncourtService.create_deuxieme_selection
  split
  · rfl
  · split
    · rfl
    · split
      · rfl
      · dsimp only
        split
        · rfl
        · cases fault
          · simp only [SelectionDAO.create, Bool.false_eq_true, if_false,
              SelectionDAO.create_body_fst, DaoOut.res_mk]
            have h2n : ((2 : Nat) == n) = false := by
              simp
              omega
            split
            · simp only [SvcOut.db_mk, find_by_round_create_body, h2n]
              simp
            · simp only [SvcOut.db_mk, find_by_round_create_body, h2n]
              simp
          · simp [SelectionDAO.create]

theorem find_by_round_create3_ne (fault : Bool) (ids : List Nat) (db : DB) (n : Nat)
    (hn : n ≠ 3) :
    SelectionDAO.find_by_round
        (GoncourtService.create_troisieme_selection fault ids db).db n =
      SelectionDAO.find_by_round db n := by
  unfold GoncourtService.create_troisieme_selection
  split
  · rfl
  · split
    · rfl
    · split
      · rfl
      · dsimp only
        split
        · rfl
        · cases fault
          · simp only [SelectionDAO.create, Bool.false_eq_true, if_false,
              SelectionDAO.create_body_fst, DaoOut.res_mk]
            have h3n : ((3 : Nat) == n) = false := by
              simp
              omega
            split
            · simp only [SvcOut.db_mk, find_by_round_create_body, h3n]
              simp
            · simp only [SvcOut.db_mk, find_by_round_create_body, h3n]
              simp
          · simp [SelectionDAO.create]

theorem find_by_round_final_ne (fault : Bool) (db : DB) (n : Nat) (hn : n ≠ 4) :
    SelectionDAO.find_by_round
        (GoncourtService.create_final_selection fault db).db n =
      SelectionDAO.find_by_round db n := by
  unfold GoncourtService.create_final_selection
  split
  · rfl
  · dsimp only
    split
    · rfl
    · cases fault
      · simp only [SelectionDAO.create, Bool.false_eq_true, if_false,
          SelectionDAO.create_body_fst, DaoOut.res_mk]
        have h4n : ((4 : Nat) == n) = false := by
          simp
          omega
        split
        · simp only [SvcOut.db_mk, find_by_round_create_body, h4n]
          simp
        · simp only [SvcOut.db_mk, find_by_round_create_body, h4n]
          simp
      · simp [SelectionDAO.create]

theorem find_by_round_init_ne (fault : Bool) (db : DB) (n : Nat) (hn : n ≠ 1) :
    SelectionDAO.find_by_round
        (GoncourtService.initialize_first_selection fault db).1 n =
      SelectionDAO.find_by_round db n := by
  unfold GoncourtService.initialize_first_selection
  split
  · rfl
  · cases fault
    · simp only [SelectionDAO.create, Bool.false_eq_true, if_false,
        SelectionDAO.create_body_fst, DaoOut.res_mk, BookDAO.read_all]
      have h1n : ((1 : Nat) == n) = false := by
        simp
        omega
      split
      · simp only [find_by_round_create_body, h1n]
        simp
      · simp only [find_by_round_create_body, h1n]
        simp
    · simp [SelectionDAO.create]

theorem find_by_round_mem (db : DB) (n : Nat) (r : SelectionRow)
    (h : SelectionDAO.find_by_round db n = some r) :
    r ∈ db.selections ∧ r.s_round = n := by
  unfold SelectionDAO.find_by_round at h
  refine ⟨List.mem_of_find?_eq_some h, ?_⟩
  have := List.find?_some h
  simpa using this

theorem selection_books_mem (db : DB) (sid : Nat) (b : Book)
    (h : b ∈ selection_books db sid) :
    b ∈ db.books ∧ b.b_id ∈ (db.book_selection.filter (fun p => p.2 == sid)).map Prod.fst := by
  unfold selection_books BookDAO.get_books_by_selection at h
  obtain ⟨p, hp, hread⟩ := List.mem_filterMap.1 h
  obtain ⟨hmem, hid⟩ := read_mem_books db p.1 b hread
  exact ⟨hmem, hid ▸ List.mem_map_of_mem Prod.fst hp⟩

theorem selection_books_resolvable (db : DB) (sid : Nat) (b : Book)
    (h : b ∈ selection_books db sid) : BookDAO.read db b.b_id = some b := by
  unfold selection_books BookDAO.get_books_by_selection at h
  obtain ⟨p, hp, hread⟩ := List.mem_filterMap.1 h
  obtain ⟨hmem, hid⟩ := read_mem_books db p.1 b hread
  rw [hid]
  exact hread

theorem nodup_fst_of_const_snd :
    ∀ (ps : List (Nat × Nat)) (sid : Nat), ps.Nodup → (∀ p ∈ ps, p.2 = sid) →
      (ps.map Prod.fst).Nodup
  | [], _, _, _ => List.nodup_nil
  | p :: ps, sid, hN, hall => by
      rw [List.map_cons, List.nodup_cons]
      obtain ⟨hp, hps⟩ := List.nodup_cons.1 hN
      refine ⟨?_, nodup_fst_of_const_snd ps sid hps
        (fun q hq => hall q (List.mem_cons_of_mem p hq))⟩
      intro hmem
      obtain ⟨q, hq, hq1⟩ := List.mem_map.1 hmem
      have hq2 : q.2 = sid := hall q (List.mem_cons_of_mem p hq)
      have hp2 : p.2 = sid := hall p (List.mem_cons_self p ps)
      have : q = p := Prod.ext hq1 (hq2.trans hp2.symm)
      exact hp (this ▸ hq)

theorem filterMap_read_ids_nodup (db : DB) :
    ∀ ps : List (Nat × Nat), (ps.map Prod.fst).Nodup →
      ((ps.filterMap (fun p => BookDAO.read db p.1)).map Book.b_id).Nodup
  | [], _ => List.nodup_nil
  | p :: ps, hN => by
      have hN' := hN
      rw [List.map_cons, List.nodup_cons] at hN'
      obtain ⟨hp, hps⟩ := hN'
      rw [List.filterMap_cons]
      cases hread : BookDAO.read db p.1 with
      | none => exact filterMap_read_ids_nodup db ps hps
      | some b =>
          rw [List.map_cons, List.nodup_cons]
          refine ⟨?_, filterMap_read_ids_nodup db ps hps⟩
          intro hmem
          obtain ⟨c, hc, hcid⟩ := List.mem_map.1 hmem
          obtain ⟨q, hq, hqread⟩ := List.mem_filterMap.1 hc
          have hcq : c.b_id = q.1 := (read_mem_books db q.1 c hqread).2
          have hbp : b.b_id = p.1 := (read_mem_books db p.1 b hread).2
          apply hp
          have hpq : p.1 = q.1 := by rw [← hbp, ← hcid]; exact hcq
          exact hpq ▸ List.mem_map_of_mem Prod.fst hq

theorem selection_books_ids_nodup (db : DB) (sid : Nat)
    (hjN : db.book_selection.Nodup) :
    ((selection_books db sid).map Book.b_id).Nodup := by
  unfold selection_books BookDAO.get_books_by_selection
  apply filterMap_read_ids_nodup
  apply nodup_fst_of_const_snd _ sid (hjN.filter _)
  intro p hp
  have := List.of_mem_filter hp
  simpa using this

theorem create_body_junction_suffix (db : DB) (obj : Selection) :
    ∃ ps, (SelectionDAO.create_body db obj).2.book_selection =
        db.book_selection ++ ps ∧ ∀ p ∈ ps, p.2 = db.nextSelId := by
  unfold SelectionDAO.create_body
  exact add_books_fold_junction_suffix _ _ _

theorem create_body_junction_nodup (db : DB) (obj : Selection)
    (h : db.book_selection.Nodup) :
    (SelectionDAO.create_body db obj).2.book_selection.Nodup := by
  unfold SelectionDAO.create_body
  exact add_books_fold_junction_nodup _ _ _ h

theorem wf_create_body (db : DB) (obj : Selection) (hwf : WF db)
    (h4 : obj.s_round = 4 → ∃ r3, SelectionDAO.find_by_round db 3 = some r3 ∧
      obj.book = selection_books db r3.s_id) :
    WF (SelectionDAO.create_body db obj).2 := by
  obtain ⟨hbN, hpos, hselB, hselN, hjB, hjN, hlink, hvotes⟩ := hwf
  obtain ⟨ps, hps, hpall⟩ := create_body_junction_suffix db obj
  refine ⟨?_, ?_, ?_, ?_, ?_, ?_, ?_, ?_⟩
  · rw [SelectionDAO.create_body_books]; exact hbN
  · rw [SelectionDAO.create_body_nextSelId]; omega
  · rw [SelectionDAO.create_body_selections, SelectionDAO.create_body_nextSelId]
    intro r hr
    rcases List.mem_append.1 hr with h | h
    · exact (hselB r h).trans (Nat.lt_succ_self _)
    · have hr' : r = ⟨db.nextSelId, obj.s_name, obj.s_round, obj.s_date⟩ :=
        List.mem_singleton.1 h
      rw [hr']
      exact Nat.lt_succ_self _
  · rw [SelectionDAO.create_body_selections, List.map_append]
    apply List.Nodup.append hselN (List.nodup_singleton _)
    intro a ha hb
    simp only [List.map_cons, List.map_nil, List.mem_singleton] at hb
    obtain ⟨r, hr, hrid⟩ := List.mem_map.1 ha
    have := hselB r hr
    omega
  · rw [hps, SelectionDAO.create_body_nextSelId]
    intro p hp
    rcases List.mem_append.1 hp with h | h
    · exact (hjB p h).trans (Nat.lt_succ_self _)
    · rw [hpall p h]; exact Nat.lt_succ_self _
  · exact create_body_junction_nodup db obj hjN
  · rw [SelectionDAO.create_body_selections]
    intro r hr hr4
    rcases List.mem_append.1 hr with hold | hnew
    · obtain ⟨r3, hfind3, hids⟩ := hlink r hold hr4
      have hr3mem := (find_by_round_mem db 3 r3 hfind3).1
      refine ⟨r3, ?_, ?_⟩
      · rw [find_by_round_create_body, hfind3]; rfl
      · rw [selection_books_create_body_frozen db obj r.s_id
              (Nat.ne_of_lt (hselB r hold)),
            selection_books_create_body_frozen db obj r3.s_id
              (Nat.ne_of_lt (hselB r3 hr3mem))]
        exact hids
    · have hr' : r = ⟨db.nextSelId, obj.s_name, obj.s_round, obj.s_date⟩ :=
        List.mem_singleton.1 hnew
      subst hr'
      obtain ⟨r3, hfind3, hbooks⟩ := h4 (by simpa using hr4)
      have hr3mem := (find_by_round_mem db 3 r3 hfind3).1
      refine ⟨r3, ?_, ?_⟩
      · rw [find_by_round_create_body, hfind3]; rfl
      · have hnewbooks : selection_books (SelectionDAO.create_body db obj).2
            db.nextSelId = obj.book := by
          apply selection_books_create_body_new db obj
          · rw [hbooks]; exact selection_books_ids_nodup db r3.s_id hjN
          · exact hjB
          · intro b hb
            rw [hbooks] at hb
            exact selection_books_resolvable db r3.s_id b hb
        have hfrozen3 := selection_books_create_body_frozen db obj r3.s_id
          (Nat.ne_of_lt (hselB r3 hr3mem))
        simp only
        rw [hnewbooks, hfrozen3, hbooks]
  · rw [SelectionDAO.create_body_votes]
    intro v hv
    obtain ⟨⟨r4, hfind4, hsid⟩, hbook⟩ := hvotes v hv
    refine ⟨⟨r4, ?_, hsid⟩, ?_⟩
    · rw [find_by_round_create_body, hfind4]; rfl
    · rw [BookDAO.read_create_body]; exact hbook

theorem selection_books_record_body (db : DB) (data : List (Nat × Int))
    (sid vd sid' : Nat) :
    selection_books (VoteDAO.record_final_votes_body db data sid vd) sid' =
      selection_books db sid' := by
  obtain ⟨hbooks, hsels, hjunc, hnext⟩ := record_body_frame db data sid vd
  unfold selection_books BookDAO.get_books_by_selection
  rw [hjunc]
  apply List.filterMap_congr
  intro p hp
  unfold BookDAO.read
  rw [hbooks]

theorem find_by_round_record_body (db : DB) (data : List (Nat × Int))
    (sid vd n : Nat) :
    SelectionDAO.find_by_round (VoteDAO.record_final_votes_body db data sid vd) n =
      SelectionDAO.find_by_round db n := by
  unfold SelectionDAO.find_by_round
  rw [(record_body_frame db data sid vd).2.1]

theorem read_record_body (db : DB) (data : List (Nat × Int)) (sid vd pk : Nat) :
    BookDAO.read (VoteDAO.record_final_votes_body db data sid vd) pk =
      BookDAO.read db pk := by
  unfold BookDAO.read
  rw [(record_body_frame db data sid vd).1]

theorem wf_record_body (db : DB) (data : List (Nat × Int)) (sid vd : Nat)
    (hwf : WF db)
    (hsid : ∃ r4, SelectionDAO.find_by_round db 4 = some r4 ∧ sid = r4.s_id)
    (hkeys : ∀ k ∈ data.map Prod.fst, (BookDAO.read db k).isSome) :
    WF (VoteDAO.record_final_votes_body db data sid vd) := by
  obtain ⟨hbN, hpos, hselB, hselN, hjB, hjN, hlink, hvotes⟩ := hwf
  obtain ⟨hbooks, hsels, hjunc, hnext⟩ := record_body_frame db data sid vd
  obtain ⟨rows, hrows, hmap, hall⟩ := record_body_votes db data sid vd
  refine ⟨?_, ?_, ?_, ?_, ?_, ?_, ?_, ?_⟩
  · rw [hbooks]; exact hbN
  · rw [hnext]; exact hpos
  · rw [hsels, hnext]; exact hselB
  · rw [hsels]; exact hselN
  · rw [hjunc, hnext]; exact hjB
  · rw [hjunc]; exact hjN
  · rw [hsels]
    intro r hr hr4
    obtain ⟨r3, hfind3, hids⟩ := hlink r hr hr4
    refine ⟨r3, ?_, ?_⟩
    · rw [find_by_round_record_body, hfind3]
    · rw [selection_books_record_body, selection_books_record_body]
      exact hids
  · intro v hv
    rw [hrows] at hv
    rcases List.mem_append.1 hv with hkeep | hnew
    · have hvdb : v ∈ db.votes := List.mem_of_mem_filter hkeep
      obtain ⟨⟨r4, hfind4, hvsid⟩, hbook⟩ := hvotes v hvdb
      refine ⟨⟨r4, ?_, hvsid⟩, ?_⟩
      · rw [find_by_round_record_body, hfind4]
      · rw [read_record_body]; exact hbook
    · obtain ⟨r4, hfind4, hsideq⟩ := hsid
      refine ⟨⟨r4, ?_, ?_⟩, ?_⟩
      · rw [find_by_round_record_body, hfind4]
      · rw [(hall v hnew).1, hsideq]
      · rw [read_record_body]
        apply hkeys
        have : (v.b_id, v.v_number_vote) ∈ data := by
          rw [← hmap]
          exact List.mem_map_of_mem _ hnew
        simpa using List.mem_map_of_mem Prod.fst this

theorem wf_initialDB (catalog : List Book)
    (hN : (catalog.map Book.b_id).Nodup) : WF (initialDB catalog) := by
  refine ⟨hN, Nat.one_pos, ?_, ?_, ?_, ?_, ?_, ?_⟩ <;> simp [initialDB]

theorem create_deuxieme_fault_ok (ids : List Nat) (db : DB) :
    (GoncourtService.create_deuxieme_selection true ids db).ok = false := by
  unfold GoncourtService.create_deuxieme_selection
  split
  · rfl
  · split
    · rfl
    · split
      · rfl
      · dsimp only
        split
        · rfl
        · simp [SelectionDAO.create]

theorem create_troisieme_fault_ok (ids : List Nat) (db : DB) :
    (GoncourtService.create_troisieme_selection true ids db).ok = false := by
  unfold GoncourtService.create_troisieme_selection
  split
  · rfl
  · split
    · rfl
    · split
      · rfl
      · dsimp only
        split
        · rfl
        · simp [SelectionDAO.create]

theorem create_final_fault_ok (db : DB) :
    (GoncourtService.create_final_selection true db).ok = false := by
  unfold GoncourtService.create_final_selection
  split
  · rfl
  · dsimp only
    split
    · rfl
    · simp [SelectionDAO.create]

theorem record_fault_ok (votes_data : List (Nat × Int)) (today : Nat) (db : DB) :
    (GoncourtService.record_final_votes true votes_data today db).ok = false := by
  unfold GoncourtService.record_final_votes
  split
  · rfl
  · dsimp only
    split
    · rfl
    · split
      · rfl
      · simp [VoteDAO.record_final_votes]

theorem wf_applyOp (db : DB) (op : Op) (hwf : WF db) : WF (applyOp db op) := by
  have hpos : 0 < db.nextSelId := hwf.2.1
  cases op with
  | opInit fault =>
      cases fault
      · cases hfind : SelectionDAO.find_by_round db 1 with
        | some r =>
            have heq := init_of_round1_exists false db (by rw [hfind]; rfl)
            simp only [applyOp, heq]
            exact hwf
        | none =>
            simp only [applyOp]
            rw [init_none_db db hfind]
            apply wf_create_body db _ hwf
            intro h
            simp at h
      · simp only [applyOp]
        rw [init_fault_db]
        exact hwf
  | opCreate2 fault ids =>
      cases fault
      · cases hok : (GoncourtService.create_deuxieme_selection false ids db).ok with
        | false =>
            simp only [applyOp]
            rw [create_deuxieme_fail_db false ids db hpos hok]
            exact hwf
        | true =>
            obtain ⟨bs, hcol, hforall, hdb⟩ := create_deuxieme_success_db ids db hpos hok
            simp only [applyOp]
            rw [hdb]
            apply wf_create_body db _ hwf
            intro h
            simp at h
      · simp only [applyOp]
        rw [create_deuxieme_fail_db true ids db hpos (create_deuxieme_fault_ok ids db)]
        exact hwf
  | opCreate3 fault ids =>
      cases fault
      · cases hok : (GoncourtService.create_troisieme_selection false ids db).ok with
        | false =>
            simp only [applyOp]
            rw [create_troisieme_fail_db false ids db hpos hok]
            exact hwf
        | true =>
            obtain ⟨bs, hcol, hforall, hdb⟩ := create_troisieme_success_db ids db hpos hok
            simp only [applyOp]
            rw [hdb]
            apply wf_create_body db _ hwf
            intro h
            simp at h
      · simp only [applyOp]
        rw [create_troisieme_fail_db true ids db hpos (create_troisieme_fault_ok ids db)]
        exact hwf
  | opFinal fault =>
      cases fault
      · cases hok : (GoncourtService.create_final_selection false db).ok with
        | false =>
            simp only [applyOp]
            rw [create_final_fail_db false db hpos hok]
            exact hwf
        | true =>
            obtain ⟨r3, hfind3, hlen4, hdb⟩ := create_final_success_db db hpos hok
            simp only [applyOp]
            rw [hdb]
            apply wf_create_body db _ hwf
            intro _
            exact ⟨r3, hfind3, rfl⟩
      · simp only [applyOp]
        rw [create_final_fail_db true db hpos (create_final_fault_ok db)]
        exact hwf
  | opRecord fault votes today =>
      cases fault
      · cases hok : (GoncourtService.record_final_votes false votes today db).ok with
        | false =>
            simp only [applyOp]
            rw [record_fail_db false votes today db hok]
            exact hwf
        | true =>
            obtain ⟨hfindsome, hmem, hsum⟩ := (record_ok_iff votes today db).1 hok
            obtain ⟨r4, hfind4, hdb⟩ := record_success_db votes today db hok
            simp only [applyOp]
            rw [hdb]
            apply wf_record_body db votes r4.s_id today hwf ⟨r4, hfind4, rfl⟩
            intro k hk
            have hmem4 := hmem k hk
            simp only [roundWorkIds, hfind4] at hmem4
            obtain ⟨b, hb, hbid⟩ := List.mem_map.1 hmem4
            rw [← hbid]
            rw [selection_books_resolvable db r4.s_id b hb]
            rfl
      · simp only [applyOp]
        rw [record_fail_db true votes today db (record_fault_ok votes today db)]
        exact hwf

theorem wf_runOps (ops : List Op) : ∀ db : DB, WF db → WF (runOps db ops) := by
  induction ops with
  | nil => intro db hwf; exact hwf
  | cons op ops ih =>
      intro db hwf
      exact ih (applyOp db op) (wf_applyOp db op hwf)

theorem wf_reachable (catalog : List Book) (db : DB)
    (hN : (catalog.map Book.b_id).Nodup) (h : Reachable catalog db) : WF db := by
  obtain ⟨ops, rfl⟩ := h
  exact wf_runOps ops (initialDB catalog) (wf_initialDB catalog hN)

/-! ### The descending sort of `get_final_results` -/

theorem insert_by_votes_desc_perm (v : VoteRow) (l : List VoteRow) :
    (insert_by_votes_desc v l).Perm (v :: l) := by
  induction l with
  | nil => exact List.Perm.refl _
  | cons w ws ih =>
      unfold insert_by_votes_desc
      split
      · exact List.Perm.refl _
      · exact (List.Perm.cons w ih).trans (List.Perm.swap v w ws)

theorem sort_by_votes_desc_perm (l : List VoteRow) :
    (sort_by_votes_desc l).Perm l := by
  induction l with
  | nil => exact List.Perm.refl _
  | cons v vs ih =>
      unfold sort_by_votes_desc
      exact (insert_by_votes_desc_perm v (sort_by_votes_desc vs)).trans (ih.cons v)

theorem insert_by_votes_desc_mem (x v : VoteRow) (l : List VoteRow) :
    x ∈ insert_by_votes_desc v l ↔ x = v ∨ x ∈ l := by
  rw [(insert_by_votes_desc_perm v l).mem_iff]
  simp

theorem insert_by_votes_desc_sorted (v : VoteRow) (l : List VoteRow)
    (h : l.Sorted (fun a b => b.v_number_vote ≤ a.v_number_vote)) :
    (insert_by_votes_desc v l).Sorted (fun a b => b.v_number_vote ≤ a.v_number_vote) := by
  induction l with
  | nil => simp [insert_by_votes_desc]
  | cons w ws ih =>
      rw [List.sorted_cons] at h
      obtain ⟨hw, hws⟩ := h
      unfold insert_by_votes_desc
      split
      · rename_i hlt
        rw [List.sorted_cons]
        refine ⟨?_, by rw [List.sorted_cons]; exact ⟨hw, hws⟩⟩
        intro x hx
        rcases List.mem_cons.1 hx with h | h
        · subst h; omega
        · have := hw x h
          omega
      · rename_i hnlt
        rw [List.sorted_cons]
        refine ⟨?_, ih hws⟩
        intro x hx
        rcases (insert_by_votes_desc_mem x v ws).1 hx with h | h
        · subst h; omega
        · exact hw x h

theorem sort_by_votes_desc_sorted (l : List VoteRow) :
    (sort_by_votes_desc l).Sorted (fun a b => b.v_number_vote ≤ a.v_number_vote) := by
  induction l with
  | nil => simp [sort_by_votes_desc]
  | cons v vs ih =>
      unfold sort_by_votes_desc
      exact insert_by_votes_desc_sorted v _ ih

theorem round4_join_eq_filter (db : DB)
    (hbooks : ∀ v ∈ db.votes, (BookDAO.read db v.b_id).isSome) :
    VoteDAO.round4_join db =
      db.votes.filter (fun v => selRound db v.s_id == some 4) := by
  unfold VoteDAO.round4_join
  apply List.filter_congr
  intro v hv
  rw [hbooks v hv]
  unfold selRound
  simp

theorem create_final_success_round4 (db : DB) (hwf : WF db)
    (hok : (GoncourtService.create_final_selection false db).ok = true) :
    (SelectionDAO.find_by_round
      (GoncourtService.create_final_selection false db).db 4).isSome ∧
    roundWorkIds (GoncourtService.create_final_selection false db).db 4 =
      roundWorkIds (GoncourtService.create_final_selection false db).db 3 := by
  obtain ⟨hbN, hpos, hselB, hselN, hjB, hjN, hlink, hvotes⟩ := hwf
  obtain ⟨r3, hfind3, hlen4, hdb⟩ := create_final_success_db db hpos hok
  have hr3mem := (find_by_round_mem db 3 r3 hfind3).1
  rw [hdb]
  have hfind3' : SelectionDAO.find_by_round
      (SelectionDAO.create_body db
        { s_id := 0, s_name := "FINALISTES DU PRIX GONCOURT", s_round := 4,
          s_date := some 20251104, book := selection_books db r3.s_id }).2 3 =
      some r3 := by
    rw [find_by_round_create_body, hfind3]
    rfl
  have hfroz3 : selection_books
      (SelectionDAO.create_body db
        { s_id := 0, s_name := "FINALISTES DU PRIX GONCOURT", s_round := 4,
          s_date := some 20251104, book := selection_books db r3.s_id }).2 r3.s_id =
      selection_books db r3.s_id :=
    selection_books_create_body_frozen db _ r3.s_id (Nat.ne_of_lt (hselB r3 hr3mem))
  have hnew : selection_books
      (SelectionDAO.create_body db
        { s_id := 0, s_name := "FINALISTES DU PRIX GONCOURT", s_round := 4,
          s_date := some 20251104, book := selection_books db r3.s_id }).2
      db.nextSelId = selection_books db r3.s_id := by
    apply selection_books_create_body_new
    · exact selection_books_ids_nodup db r3.s_id hjN
    · exact hjB
    · intro b hb
      exact selection_books_resolvable db r3.s_id b hb
  cases hfind4 : SelectionDAO.find_by_round db 4 with
  | some r4 =>
      have hr4p := find_by_round_mem db 4 r4 hfind4
      have hfind4' : SelectionDAO.find_by_round
          (SelectionDAO.create_body db
            { s_id := 0, s_name := "FINALISTES DU PRIX GONCOURT", s_round := 4,
              s_date := some 20251104, book := selection_books db r3.s_id }).2 4 =
          some r4 := by
        rw [find_by_round_create_body, hfind4]
        rfl
      obtain ⟨r3', hfind3'', hids⟩ := hlink r4 hr4p.1 hr4p.2
      have hr3eq : r3' = r3 := by
        rw [hfind3] at hfind3''
        exact (Option.some.inj hfind3'').symm
      subst hr3eq
      constructor
      · rw [hfind4']
        rfl
      · simp only [roundWorkIds, hfind4', hfind3']
        rw [selection_books_create_body_frozen db _ r4.s_id
          (Nat.ne_of_lt (hselB r4 hr4p.1)), hfroz3]
        exact hids
  | none =>
      have hfind4' : SelectionDAO.find_by_round
          (SelectionDAO.create_body db
            { s_id := 0, s_name := "FINALISTES DU PRIX GONCOURT", s_round := 4,
              s_date := some 20251104, book := selection_books db r3.s_id }).2 4 =
          some { s_id := db.nextSelId, s_name := "FINALISTES DU PRIX GONCOURT",
                 s_round := 4, s_date := some 20251104 } := by
        rw [find_by_round_create_body, hfind4]
        rfl
      constructor
      · rw [hfind4']
        rfl
      · simp only [roundWorkIds, hfind4', hfind3']
        rw [hnew, hfroz3]

theorem roundWorkIds_final_3 (db : DB) (hwf : WF db) :
    roundWorkIds (GoncourtService.create_final_selection false db).db 3 =
      roundWorkIds db 3 := by
  cases hok : (GoncourtService.create_final_selection false db).ok with
  | false => rw [create_final_fail_db false db hwf.2.1 hok]
  | true =>
      obtain ⟨r3, hfind3, hlen, hdb⟩ := create_final_success_db db hwf.2.1 hok
      rw [hdb]
      have hfind3' : SelectionDAO.find_by_round
          (SelectionDAO.create_body db
            { s_id := 0, s_name := "FINALISTES DU PRIX GONCOURT", s_round := 4,
              s_date := some 20251104, book := selection_books db r3.s_id }).2 3 =
          some r3 := by
        rw [find_by_round_create_body, hfind3]
        rfl
      simp only [roundWorkIds, hfind3, hfind3']
      rw [selection_books_create_body_frozen db _ r3.s_id
        (Nat.ne_of_lt (hwf.2.2.1 r3 (find_by_round_mem db 3 r3 hfind3).1))]

theorem facade2_success_shape (fault conf : Bool) (indices : List Int) (db : DB) :
    (GoncourtApplication.create_deuxieme_selection fault conf indices db).ok = true →
    ∃ ids : List Nat,
      (GoncourtService.create_deuxieme_selection fault ids db).ok = true ∧
      (GoncourtApplication.create_deuxieme_selection fault conf indices db).db =
        (GoncourtService.create_final_selection fault
          (GoncourtService.create_deuxieme_selection fault ids db).db).db := by
  unfold GoncourtApplication.create_deuxieme_selection
  split
  · intro h; cases h
  · split
    · intro h; cases h
    · dsimp only
      split
      · intro h; cases h
      · split
        · intro h; cases h
        · split
          · intro h; cases h
          · split
            · rename_i hok
              intro _
              exact ⟨_, hok, rfl⟩
            · intro h; cases h

theorem facade3_success_shape (fault conf : Bool) (indices : List Int) (db : DB) :
    (GoncourtApplication.create_troisieme_selection fault conf indices db).ok = true →
    ∃ ids : List Nat,
      (GoncourtService.create_troisieme_selection fault ids db).ok = true ∧
      (GoncourtApplication.create_troisieme_selection fault conf indices db).db =
        (GoncourtService.create_final_selection fault
          (GoncourtService.create_troisieme_selection fault ids db).db).db := by
  unfold GoncourtApplication.create_troisieme_selection
  split
  · intro h; cases h
  · split
    · intro h; cases h
    · dsimp only
      split
      · intro h; cases h
      · split
        · intro h; cases h
        · split
          · intro h; cases h
          · split
            · rename_i hok
              intro _
              exact ⟨_, hok, rfl⟩
            · intro h; cases h

theorem facade2_no_round3_no_round4 (fault conf : Bool) (indices : List Int)
    (db : DB) (h3 : SelectionDAO.find_by_round db 3 = none) :
    SelectionDAO.find_by_round
        (GoncourtApplication.create_deuxieme_selection fault conf indices db).db 4 =
      SelectionDAO.find_by_round db 4 := by
  unfold GoncourtApplication.create_deuxieme_selection
  split
  · rfl
  · split
    · rfl
    · dsimp only
      split
      · rfl
      · split
        · rfl
        · split
          · rfl
          · split
            · have h3' : SelectionDAO.find_by_round
                  (GoncourtService.create_deuxieme_selection fault
                    (List.filterMap
                      (fun idx => Option.map (fun b => b.b_id)
                        (GoncourtService.get_available_books_for_selection db 2)[idx.toNat]?)
                      indices) db).db 3 = none := by
                rw [find_by_round_create2_ne fault _ db 3 (by omega)]
                exact h3
              rw [SvcOut.db_mk, create_final_no_round3 fault _ h3', SvcOut.db_mk]
              rw [find_by_round_create2_ne fault _ db 4 (by omega)]
            · rw [SvcOut.db_mk]
              rw [find_by_round_create2_ne fault _ db 4 (by omega)]

/-! ### The exception flow: DAO handlers catch every fault -/

theorem create_caught_eq (db : DB) (fault : Bool) (obj : Selection) :
    SelectionDAO.create_caught db fault obj =
      Except.ok (SelectionDAO.create db fault obj) := by
  cases fault <;> rfl

theorem record_caught_eq (db : DB) (fault : Bool) (votes_data : List (Nat × Int))
    (selection_id vote_date : Nat) :
    VoteDAO.record_final_votes_caught db fault votes_data selection_id vote_date =
      Except.ok (VoteDAO.record_final_votes db fault votes_data selection_id vote_date) := by
  cases fault <;> rfl

theorem initE_refines (fault : Bool) (db : DB) :
    GoncourtService.initialize_first_selectionE fault db =
      Except.ok (GoncourtService.initialize_first_selection fault db) := by
  unfold GoncourtService.initialize_first_selectionE
    GoncourtService.initialize_first_selection
  cases hfind : SelectionDAO.find_by_round db 1 with
  | some r => rfl
  | none =>
      simp only [create_caught_eq, bind, Except.bind]
      split <;> rfl

theorem create_deuxiemeE_refines (fault : Bool) (ids : List Nat) (db : DB) :
    GoncourtService.create_deuxieme_selectionE fault ids db =
      Except.ok (GoncourtService.create_deuxieme_selection fault ids db) := by
  unfold GoncourtService.create_deuxieme_selectionE
    GoncourtService.create_deuxieme_selection
  split
  · rfl
  · cases hcol : collect_books db ids with
    | error e => rfl
    | ok bs =>
        cases hfind : SelectionDAO.find_by_round db 1 with
        | none => rfl
        | some premiere =>
            dsimp only
            split
            · rfl
            · simp only [create_caught_eq, bind, Except.bind]
              split <;> rfl

theorem create_troisiemeE_refines (fault : Bool) (ids : List Nat) (db : DB) :
    GoncourtService.create_troisieme_selectionE fault ids db =
      Except.ok (GoncourtService.create_troisieme_selection fault ids db) := by
  unfold GoncourtService.create_troisieme_selectionE
    GoncourtService.create_troisieme_selection
  split
  · rfl
  · cases hcol : collect_books db ids with
    | error e => rfl
    | ok bs =>
        cases hfind : SelectionDAO.find_by_round db 2 with
        | none => rfl
        | some deuxieme =>
            dsimp only
            split
            · rfl
            · simp only [create_caught_eq, bind, Except.bind]
              split <;> rfl

theorem create_finalE_refines (fault : Bool) (db : DB) :
    GoncourtService.create_final_selectionE fault db =
      Except.ok (GoncourtService.create_final_selection fault db) := by
  unfold GoncourtService.create_final_selectionE
    GoncourtService.create_final_selection
  cases hfind : SelectionDAO.find_by_round db 3 with
  | none => rfl
  | some troisieme =>
      dsimp only
      split
      · rfl
      · simp only [create_caught_eq, bind, Except.bind]
        split <;> rfl

theorem recordE_refines (fault : Bool) (votes_data : List (Nat × Int))
    (today : Nat) (db : DB) :
    GoncourtService.record_final_votesE fault votes_data today db =
      Except.ok (GoncourtService.record_final_votes fault votes_data today db) := by
  unfold GoncourtService.record_final_votesE GoncourtService.record_final_votes
  cases hfind : SelectionDAO.find_by_round db 4 with
  | none => rfl
  | some finale =>
      dsimp only
      split
      · rfl
      · split
        · rfl
        · simp only [record_caught_eq, bind, Except.bind]
          split <;> rfl

theorem create_deuxieme_fail_log (fault : Bool) (ids : List Nat) (db : DB)
    (hpos : 0 < db.nextSelId) :
    (GoncourtService.create_deuxieme_selection fault ids db).ok = false →
    (GoncourtService.create_deuxieme_selection fault ids db).log ≠ [] := by
  unfold GoncourtService.create_deuxieme_selection
  split
  · intro _; simp
  · split
    · intro _; simp
    · split
      · intro _; simp
      · dsimp only
        split
        · intro _; simp
        · cases fault
          · simp only [SelectionDAO.create, Bool.false_eq_true, if_false,
              SelectionDAO.create_body_fst, DaoOut.res_mk]
            rw [if_pos (show (db.nextSelId != 0) = true by
              simpa using Nat.pos_iff_ne_zero.1 hpos)]
            intro h; cases h
          · intro _
            simp [SelectionDAO.create]

theorem create_troisieme_fail_log (fault : Bool) (ids : List Nat) (db : DB)
    (hpos : 0 < db.nextSelId) :
    (GoncourtService.create_troisieme_selection fault ids db).ok = false →
    (GoncourtService.create_troisieme_selection fault ids db).log ≠ [] := by
  unfold GoncourtService.create_troisieme_selection
  split
  · intro _; simp
  · split
    · intro _; simp
    · split
      · intro _; simp
      · dsimp only
        split
        · intro _; simp
        · cases fault
          · simp only [SelectionDAO.create, Bool.false_eq_true, if_false,
              SelectionDAO.create_body_fst, DaoOut.res_mk]
            rw [if_pos (show (db.nextSelId != 0) = true by
              simpa using Nat.pos_iff_ne_zero.1 hpos)]
            intro h; cases h
          · intro _
            simp [SelectionDAO.create]

theorem create_final_fail_log (fault : Bool) (db : DB) (hpos : 0 < db.nextSelId) :
    (GoncourtService.create_final_selection fault db).ok = false →
    (GoncourtService.create_final_selection fault db).log ≠ [] := by
  unfold GoncourtService.create_final_selection
  split
  · intro _; simp
  · dsimp only
    split
    · intro _; simp
    · cases fault
      · simp only [SelectionDAO.create, Bool.false_eq_true, if_false,
          SelectionDAO.create_body_fst, DaoOut.res_mk]
        rw [if_pos (show (db.nextSelId != 0) = true by
          simpa using Nat.pos_iff_ne_zero.1 hpos)]
        intro h; cases h
      · intro _
        simp [SelectionDAO.create]

theorem record_fail_log (fault : Bool) (votes_data : List (Nat × Int)) (today : Nat)
    (db : DB) :
    (GoncourtService.record_final_votes fault votes_data today db).ok = false →
    (GoncourtService.record_final_votes fault votes_data today db).log ≠ [] := by
  unfold GoncourtService.record_final_votes
  split
  · intro _; simp
  · dsimp only
    split
    · intro _; simp
    · split
      · intro _; simp
      · cases fault
        · simp only [VoteDAO.record_final_votes, Bool.false_eq_true, if_false,
            DaoOut.res_mk, if_true]
          intro h; cases h
        · intro _
          simp [VoteDAO.record_final_votes]

theorem init_fault_logged (db : DB)
    (hf : SelectionDAO.find_by_round db 1 = none) :
    (GoncourtService.initialize_first_selection true db).2 ≠ [] := by
  unfold GoncourtService.initialize_first_selection
  simp [hf, SelectionDAO.create]

theorem find_by_round_init_some (db : DB)
    (hf : SelectionDAO.find_by_round db 1 = none) :
    (SelectionDAO.find_by_round
      (GoncourtService.initialize_first_selection false db).1 1).isSome := by
  rw [init_none_db db hf]
  rw [find_by_round_create_body, hf]
  rfl

theorem init_round1_content (db : DB) (hwf : WF db)
    (hf : SelectionDAO.find_by_round db 1 = none) :
    roundWorkIds (GoncourtService.initialize_first_selection false db).1 1 =
      db.books.map Book.b_id := by
  rw [init_none_db db hf]
  have hfind1 : SelectionDAO.find_by_round
      (SelectionDAO.create_body db
        { s_id := 0, s_name := "PREMIÈRE SÉLECTION", s_round := 1,
          s_date := some 20250903, book := db.books }).2 1 =
      some { s_id := db.nextSelId, s_name := "PREMIÈRE SÉLECTION",
             s_round := 1, s_date := some 20250903 } := by
    rw [find_by_round_create_body, hf]
    rfl
  simp only [roundWorkIds, hfind1]
  rw [selection_books_create_body_new db _ hwf.1 hwf.2.2.2.2.1
    (fun b hb => read_eq_some_self db b hwf.1 hb)]

/-! ### The claims -/

/-- C1 (counterexample): the claim says `record_final_votes` succeeds only
when the vote map's key set exactly equals round 4's 4 work ids, but the code
only checks that every key is AMONG round 4's works: with round 4 = works
{1, 2, 3, 4}, the map {1 ↦ 10} (sum 10) is accepted although work 2 is a
round-4 work and not a key. -/
theorem C1_record_votes_counterexample :
    (GoncourtService.record_final_votes false [((1 : Nat), (10 : Int))] 20251104
      dbRound4).ok = true ∧
    2 ∈ roundWorkIds dbRound4 4 ∧
    2 ∉ [((1 : Nat), (10 : Int))].map Prod.fst := by decide

/-- C1 (amended): `record_final_votes` (with no persistence fault) succeeds
iff round 4 exists, every key of the vote map is one of round 4's work ids
(a subset check, not an exact-cover check), and the values sum to 10; on any
failure — business-rule or injected persistence fault — the stored state
(hence the round-4 vote records) is unchanged; on success, in every state
reachable from a seeded catalog, the stored vote records afterwards are
exactly the entries of the new map (all prior round-4 records replaced). -/
theorem C1_record_votes :
    (∀ (votes_data : List (Nat × Int)) (today : Nat) (db : DB),
      (GoncourtService.record_final_votes false votes_data today db).ok = true ↔
        ((SelectionDAO.find_by_round db 4).isSome ∧
          (∀ k ∈ votes_data.map Prod.fst, k ∈ roundWorkIds db 4) ∧
          (votes_data.map Prod.snd).sum = 10))
    ∧ (∀ (fault : Bool) (votes_data : List (Nat × Int)) (today : Nat) (db : DB),
        (GoncourtService.record_final_votes fault votes_data today db).ok = false →
        (GoncourtService.record_final_votes fault votes_data today db).db = db)
    ∧ (∀ (votes_data : List (Nat × Int)) (today : Nat) (db : DB)
        (catalog : List Book),
        (catalog.map Book.b_id).Nodup → Reachable catalog db →
        (GoncourtService.record_final_votes false votes_data today db).ok = true →
        ((GoncourtService.record_final_votes false votes_data today db).db.votes.map
          (fun v => (v.b_id, v.v_number_vote))) = votes_data) := by
  refine ⟨record_ok_iff, record_fail_db, ?_⟩
  intro data today db catalog hN hreach hok
  have hwf := wf_reachable catalog db hN hreach
  obtain ⟨r4, hfind4, hdb⟩ := record_success_db data today db hok
  rw [hdb]
  obtain ⟨rows, hrows, hmap, hall⟩ := record_body_votes db data r4.s_id today
  have hfilter : db.votes.filter (fun v => v.s_id != r4.s_id) = [] := by
    rw [List.filter_eq_nil_iff]
    intro v hv
    obtain ⟨⟨r4', hfind4', hsid⟩, -⟩ := hwf.2.2.2.2.2.2.2 v hv
    rw [hfind4] at hfind4'
    have heq : r4 = r4' := Option.some.inj hfind4'
    rw [hsid, ← heq]
    simp
  rw [hrows, hfilter, List.nil_append]
  exact hmap

/-- C1 (witness): on the reachable store with rounds 1–4 built over the
15-book catalog, a failing call (sum 5 ≠ 10) leaves the state unchanged, and
a successful full vote map is stored exactly. -/
theorem C1_record_votes_witness :
    (GoncourtService.record_final_votes false [((1 : Nat), (5 : Int))] 20251104
      dbRound4).db = dbRound4 ∧
    ((GoncourtService.record_final_votes false [(1, 4), (2, 3), (3, 2), (4, 1)]
      20251104 dbRound4).db.votes.map (fun v => (v.b_id, v.v_number_vote))) =
      [(1, 4), (2, 3), (3, 2), (4, 1)] :=
  ⟨C1_record_votes.2.1 false [((1 : Nat), (5 : Int))] 20251104 dbRound4 (by decide),
   C1_record_votes.2.2 [(1, 4), (2, 3), (3, 2), (4, 1)] 20251104 dbRound4
     testCatalog (by decide)
     ⟨[Op.opInit false, Op.opCreate2 false [1, 2, 3, 4, 5, 6, 7, 8],
       Op.opCreate3 false [1, 2, 3, 4], Op.opFinal false], rfl⟩
     (by decide)⟩

/-- C2: `create_deuxieme_selection` (round 2) and `create_troisieme_selection`
(round 3), run without a persistence fault on a store whose auto-increment
counter is positive (as MySQL guarantees), succeed iff the id list has
exactly the required length (8, resp. 4), every id resolves to a stored
book, the previous round exists, and every id is among the previous round's
work ids; in every other case they return failure. -/
theorem C2_create_round :
    ∀ (ids : List Nat) (db : DB), 0 < db.nextSelId →
      (((GoncourtService.create_deuxieme_selection false ids db).ok = true ↔
          (ids.length = 8 ∧ (∀ i ∈ ids, (BookDAO.read db i).isSome) ∧
            (SelectionDAO.find_by_round db 1).isSome ∧
            ∀ i ∈ ids, i ∈ roundWorkIds db 1)) ∧
        ((GoncourtService.create_troisieme_selection false ids db).ok = true ↔
          (ids.length = 4 ∧ (∀ i ∈ ids, (BookDAO.read db i).isSome) ∧
            (SelectionDAO.find_by_round db 2).isSome ∧
            ∀ i ∈ ids, i ∈ roundWorkIds db 2))) :=
  fun ids db hpos =>
    ⟨create_deuxieme_ok_iff ids db hpos, create_troisieme_ok_iff ids db hpos⟩

/-- C2 (witness): on the seeded store, creating round 2 from works 1..8
succeeds, and creating round 3 from works 1..4 of round 2 succeeds; a wrong
length (7 ids) fails. -/
theorem C2_create_round_witness :
    (GoncourtService.create_deuxieme_selection false [1, 2, 3, 4, 5, 6, 7, 8]
      dbRound1).ok = true ∧
    (GoncourtService.create_troisieme_selection false [1, 2, 3, 4]
      dbRound2).ok = true ∧
    ¬(GoncourtService.create_deuxieme_selection false [1, 2, 3, 4, 5, 6, 7]
      dbRound1).ok = true :=
  ⟨((C2_create_round [1, 2, 3, 4, 5, 6, 7, 8] dbRound1 (by decide)).1).mpr (by decide),
   ((C2_create_round [1, 2, 3, 4] dbRound2 (by decide)).2).mpr (by decide),
   fun h => by
    have := ((C2_create_round [1, 2, 3, 4, 5, 6, 7] dbRound1 (by decide)).1).mp h
    exact absurd this.1 (by decide)⟩

/-- C3: `create_final_selection` fails iff round 3 does not exist or does not
have exactly 4 stored works (first conjunct, an iff over any store with a
positive counter); and on every store reachable from a seeded catalog, in
any call order, a successful call leaves round 4 existing with its observable
work-id set exactly equal to round 3's observable work-id set. -/
theorem C3_finalize_round4 :
    (∀ db : DB, 0 < db.nextSelId →
      ((GoncourtService.create_final_selection false db).ok = true ↔
        ∃ r3, SelectionDAO.find_by_round db 3 = some r3 ∧
          (selection_books db r3.s_id).length = 4))
    ∧ (∀ (catalog : List Book) (db : DB),
        (catalog.map Book.b_id).Nodup → Reachable catalog db →
        (GoncourtService.create_final_selection false db).ok = true →
        (SelectionDAO.find_by_round
          (GoncourtService.create_final_selection false db).db 4).isSome ∧
        roundWorkIds (GoncourtService.create_final_selection false db).db 4 =
          roundWorkIds (GoncourtService.create_final_selection false db).db 3) := by
  refine ⟨create_final_ok_iff, ?_⟩
  intro catalog db hN hreach hok
  exact create_final_success_round4 db (wf_reachable catalog db hN hreach) hok

/-- C3 (witness): on the reachable store with rounds 1–3 built (round 3 =
works 1..4), finalizing succeeds and yields round 4 with exactly round 3's
work set; it also succeeds a second time (re-runnable). -/
theorem C3_finalize_round4_witness :
    (GoncourtService.create_final_selection false
      (runOps dbRound2 [Op.opCreate3 false [1, 2, 3, 4]])).ok = true ∧
    roundWorkIds (GoncourtService.create_final_selection false
      (runOps dbRound2 [Op.opCreate3 false [1, 2, 3, 4]])).db 4 =
      roundWorkIds (GoncourtService.create_final_selection false
        (runOps dbRound2 [Op.opCreate3 false [1, 2, 3, 4]])).db 3 := by
  have hok : (GoncourtService.create_final_selection false
      (runOps dbRound2 [Op.opCreate3 false [1, 2, 3, 4]])).ok = true :=
    (C3_finalize_round4.1 _ (by decide)).mpr
      ⟨⟨3, "TROISIÈME SÉLECTION", 3, some 20251028⟩, by decide, by decide⟩
  exact ⟨hok,
    (C3_finalize_round4.2 testCatalog _ (by decide)
      ⟨[Op.opInit false, Op.opCreate2 false [1, 2, 3, 4, 5, 6, 7, 8],
        Op.opCreate3 false [1, 2, 3, 4]], rfl⟩ hok).2⟩

/-- C4 (code bug exhibit): the cardinality invariant holds for round 1 (15
distinct works) but fails for a duplicate-containing accepted input: with
round 1 = works 1..15, the list [1,1,2,3,4,5,6,7] has length 8, every id
resolves and lies in round 1, so `create_deuxieme_selection` accepts it —
yet the stored round 2 has only the 7 distinct works 1..7, because the
junction table's INSERT IGNORE collapses the duplicate. -/
theorem C4_duplicate_ids_cardinality :
    (roundWorkIds dbRound1 1).length = 15 ∧
    (GoncourtService.create_deuxieme_selection false [1, 1, 2, 3, 4, 5, 6, 7]
      dbRound1).ok = true ∧
    roundWorkIds (GoncourtService.create_deuxieme_selection false
      [1, 1, 2, 3, 4, 5, 6, 7] dbRound1).db 2 = [1, 2, 3, 4, 5, 6, 7] ∧
    (roundWorkIds (GoncourtService.create_deuxieme_selection false
      [1, 1, 2, 3, 4, 5, 6, 7] dbRound1).db 2).length ≠ 8 := by decide

/-- C5 (counterexample): the claim says that after a successful round-3
creation through the facade, round 4 is automatically created; but with
round 2 = works 1..8 and the console indices [1,1,2,3] (0-based [0,0,1,2],
i.e. a duplicated selection), the facade reports the round-3 creation as
successful while the automatic `create_final_selection` fails (round 3
stores only 3 distinct works) and round 4 does not exist afterwards. -/
theorem C5_facade_counterexample :
    (GoncourtApplication.create_troisieme_selection false false [0, 0, 1, 2]
      dbRound2).ok = true ∧
    SelectionDAO.find_by_round
      (GoncourtApplication.create_troisieme_selection false false [0, 0, 1, 2]
        dbRound2).db 4 = none := by decide

/-- C5 (amended): the facade always invokes `create_final_selection` after a
round-2 or round-3 creation succeeds (conjuncts 2 and 3: on success the
resulting store is exactly the service creation followed by the finalize
call); while round 3 does not exist, a facade round-2 creation never
creates round 4 (conjunct 1); and after a facade round-3 creation reported
successful on a reachable store, round 4 is auto-created with exactly round
3's work set whenever the observable round 3 ends up with exactly 4 distinct
works — with duplicate indices it can end up smaller, and round 4 is then
not created (see the counterexample). -/
theorem C5_facade_auto_finalize :
    (∀ (fault conf : Bool) (indices : List Int) (db : DB),
      SelectionDAO.find_by_round db 3 = none →
      SelectionDAO.find_by_round
          (GoncourtApplication.create_deuxieme_selection fault conf indices db).db 4 =
        SelectionDAO.find_by_round db 4)
    ∧ (∀ (fault conf : Bool) (indices : List Int) (db : DB),
        (GoncourtApplication.create_deuxieme_selection fault conf indices db).ok = true →
        ∃ ids : List Nat,
          (GoncourtService.create_deuxieme_selection fault ids db).ok = true ∧
          (GoncourtApplication.create_deuxieme_selection fault conf indices db).db =
            (GoncourtService.create_final_selection fault
              (GoncourtService.create_deuxieme_selection fault ids db).db).db)
    ∧ (∀ (fault conf : Bool) (indices : List Int) (db : DB),
        (GoncourtApplication.create_troisieme_selection fault conf indices db).ok = true →
        ∃ ids : List Nat,
          (GoncourtService.create_troisieme_selection fault ids db).ok = true ∧
          (GoncourtApplication.create_troisieme_selection fault conf indices db).db =
            (GoncourtService.create_final_selection fault
              (GoncourtService.create_troisieme_selection fault ids db).db).db)
    ∧ (∀ (conf : Bool) (indices : List Int) (db : DB) (catalog : List Book),
        (catalog.map Book.b_id).Nodup → Reachable catalog db →
        (GoncourtApplication.create_troisieme_selection false conf indices db).ok = true →
        (roundWorkIds
          (GoncourtApplication.create_troisieme_selection false conf indices db).db 3).length = 4 →
        (SelectionDAO.find_by_round
          (GoncourtApplication.create_troisieme_selection false conf indices db).db 4).isSome ∧
        roundWorkIds
            (GoncourtApplication.create_troisieme_selection false conf indices db).db 4 =
          roundWorkIds
            (GoncourtApplication.create_troisieme_selection false conf indices db).db 3) := by
  refine ⟨facade2_no_round3_no_round4, facade2_success_shape, facade3_success_shape, ?_⟩
  intro conf indices db catalog hN hreach hok hlen
  have hwf := wf_reachable catalog db hN hreach
  obtain ⟨ids, hsvc, hdb⟩ := facade3_success_shape false conf indices db hok
  have hwfi : WF (GoncourtService.create_troisieme_selection false ids db).db := by
    have h := wf_applyOp db (Op.opCreate3 false ids) hwf
    simpa [applyOp] using h
  have h3eq : roundWorkIds
      (GoncourtApplication.create_troisieme_selection false conf indices db).db 3 =
      roundWorkIds (GoncourtService.create_troisieme_selection false ids db).db 3 := by
    rw [hdb]
    exact roundWorkIds_final_3 _ hwfi
  rw [h3eq] at hlen
  cases hf3 : SelectionDAO.find_by_round
      (GoncourtService.create_troisieme_selection false ids db).db 3 with
  | none => simp [roundWorkIds, hf3] at hlen
  | some r3 =>
      have hlen' : (selection_books
          (GoncourtService.create_troisieme_selection false ids db).db r3.s_id).length = 4 := by
        simp only [roundWorkIds, hf3, List.length_map] at hlen
        exact hlen
      have hfinalok : (GoncourtService.create_final_selection false
          (GoncourtService.create_troisieme_selection false ids db).db).ok = true :=
        (create_final_ok_iff _ hwfi.2.1).mpr ⟨r3, hf3, hlen'⟩
      have hres := create_final_success_round4 _ hwfi hfinalok
      rw [hdb]
      exact hres

/-- C5 (witness): with round 3 absent, a facade round-2 creation leaves
round 4 absent; and a facade round-3 creation with 4 distinct indices on the
reachable two-round store auto-creates round 4 with round 3's work set. -/
theorem C5_facade_auto_finalize_witness :
    SelectionDAO.find_by_round
        (GoncourtApplication.create_deuxieme_selection false false
          [0, 1, 2, 3, 4, 5, 6, 7] dbRound1).db 4 =
      SelectionDAO.find_by_round dbRound1 4 ∧
    (SelectionDAO.find_by_round
      (GoncourtApplication.create_troisieme_selection false false [0, 1, 2, 3]
        dbRound2).db 4).isSome ∧
    roundWorkIds
        (GoncourtApplication.create_troisieme_selection false false [0, 1, 2, 3]
          dbRound2).db 4 =
      roundWorkIds
        (GoncourtApplication.create_troisieme_selection false false [0, 1, 2, 3]
          dbRound2).db 3 := by
  refine ⟨C5_facade_auto_finalize.1 false false [0, 1, 2, 3, 4, 5, 6, 7] dbRound1
    (by decide), ?_⟩
  exact C5_facade_auto_finalize.2.2.2 false [0, 1, 2, 3] dbRound2 testCatalog
    (by decide)
    ⟨[Op.opInit false, Op.opCreate2 false [1, 2, 3, 4, 5, 6, 7, 8]], rfl⟩
    (by decide) (by decide)

/-- C6: `get_final_results` is always ordered by descending vote count; on
any store whose vote rows reference stored books (true of every reachable
store), it returns exactly the round-4 vote records (a permutation of the
votes whose selection has round number 4); and it returns the empty list
before any votes are recorded. -/
theorem C6_get_results :
    (∀ db : DB, (GoncourtService.get_final_results db).Sorted
        (fun a b => b.v_number_vote ≤ a.v_number_vote))
    ∧ (∀ db : DB, (∀ v ∈ db.votes, (BookDAO.read db v.b_id).isSome) →
        (GoncourtService.get_final_results db).Perm
          (db.votes.filter (fun v => selRound db v.s_id == some 4)))
    ∧ (∀ db : DB, db.votes = [] → GoncourtService.get_final_results db = []) := by
  refine ⟨?_, ?_, ?_⟩
  · intro db
    exact sort_by_votes_desc_sorted _
  · intro db h
    unfold GoncourtService.get_final_results VoteDAO.get_final_results
    rw [round4_join_eq_filter db h]
    exact sort_by_votes_desc_perm _
  · intro db h
    unfold GoncourtService.get_final_results VoteDAO.get_final_results
      VoteDAO.round4_join
    rw [h]
    rfl

/-- C6 (witness): on the reachable store with recorded votes 4/3/2/1 the
results are a permutation of the round-4 vote rows, and on the freshly
seeded store the result list is empty. -/
theorem C6_get_results_witness :
    (GoncourtService.get_final_results
      (GoncourtService.record_final_votes false [(1, 4), (2, 3), (3, 2), (4, 1)]
        20251104 dbRound4).db).Perm
      ((GoncourtService.record_final_votes false [(1, 4), (2, 3), (3, 2), (4, 1)]
        20251104 dbRound4).db.votes.filter
        (fun v => selRound (GoncourtService.record_final_votes false
          [(1, 4), (2, 3), (3, 2), (4, 1)] 20251104 dbRound4).db v.s_id == some 4)) ∧
    GoncourtService.get_final_results (initialDB testCatalog) = [] :=
  ⟨C6_get_results.2.1 _ (by decide), C6_get_results.2.2 (initialDB testCatalog) rfl⟩

/-- C7: the winner shown by `display_final_results` is the first element of
`get_final_results` (absent when no votes are recorded), and every displayed
percentage equals count / total * 100 when the total is positive, with the
division guarded so that a total of 0 yields percentage 0. -/
theorem C7_winner_percentages :
    ∀ db : DB,
      (GoncourtService.display_final_results db).1 =
        (GoncourtService.get_final_results db).head? ∧
      ∀ p ∈ (GoncourtService.display_final_results db).2,
        (0 < ((GoncourtService.get_final_results db).map
            (fun v => v.v_number_vote)).sum →
          p.2 = ((p.1.v_number_vote : ℚ) /
            (((((GoncourtService.get_final_results db).map
              (fun v => v.v_number_vote)).sum : ℤ) : ℚ))) * 100)
        ∧ (((GoncourtService.get_final_results db).map
            (fun v => v.v_number_vote)).sum = 0 →
          p.2 = 0) := by
  intro db
  unfold GoncourtService.display_final_results
  by_cases hemp : (GoncourtService.get_final_results db).isEmpty
  · rw [if_pos hemp]
    constructor
    · rw [List.isEmpty_iff.1 hemp]
      rfl
    · intro p hp
      cases hp
  · rw [if_neg hemp]
    constructor
    · rfl
    · intro p hp
      obtain ⟨v, hv, rfl⟩ := List.mem_map.1 hp
      constructor
      · intro hpos
        simp only [if_pos hpos]
      · intro h0
        rw [if_neg (by omega)]

/-- C7 (witness): on a round-4 store holding a single zero-count vote
record, the winner slot is the head of the results and the displayed
percentage of that row is 0 (the guarded division: the vote total is 0);
the instantiating store is
books [1], selection (1, round 4), junction [(1,1)], votes [(1, count 0)]. -/
theorem C7_winner_percentages_witness :
    (GoncourtService.display_final_results
      ⟨[mkBook 1], [⟨1, "FINALISTES DU PRIX GONCOURT", 4, none⟩], [(1, 1)],
        [⟨1, 0, 0, 1, 1⟩], 2, 2⟩).1 =
      (GoncourtService.get_final_results
        ⟨[mkBook 1], [⟨1, "FINALISTES DU PRIX GONCOURT", 4, none⟩], [(1, 1)],
          [⟨1, 0, 0, 1, 1⟩], 2, 2⟩).head? ∧
    (((⟨1, 0, 0, 1, 1⟩ : VoteRow), (0 : ℚ)) : VoteRow × ℚ).2 = 0 :=
  ⟨(C7_winner_percentages _).1,
   (((C7_winner_percentages
      ⟨[mkBook 1], [⟨1, "FINALISTES DU PRIX GONCOURT", 4, none⟩], [(1, 1)],
        [⟨1, 0, 0, 1, 1⟩], 2, 2⟩).2 _ (by decide)).2) (by decide)⟩

/-- C8: `_initialize_first_selection` is idempotent: when round 1 already
exists the call returns with the store untouched and nothing printed (not an
error); running it twice equals running it once; and when round 1 does not
exist it creates round 1 holding exactly the full book catalog. -/
theorem C8_initialize_idempotent :
    (∀ (fault : Bool) (db : DB), (SelectionDAO.find_by_round db 1).isSome →
      GoncourtService.initialize_first_selection fault db = (db, []))
    ∧ (∀ db : DB,
        (GoncourtService.initialize_first_selection false
          (GoncourtService.initialize_first_selection false db).1).1 =
        (GoncourtService.initialize_first_selection false db).1)
    ∧ (∀ db : DB, WF db → SelectionDAO.find_by_round db 1 = none →
        (SelectionDAO.find_by_round
          (GoncourtService.initialize_first_selection false db).1 1).isSome ∧
        roundWorkIds (GoncourtService.initialize_first_selection false db).1 1 =
          db.books.map Book.b_id) := by
  refine ⟨init_of_round1_exists, ?_, ?_⟩
  · intro db
    cases hfind : SelectionDAO.find_by_round db 1 with
    | some r =>
        have h1 := init_of_round1_exists false db (by rw [hfind]; rfl)
        rw [h1]
        show (GoncourtService.initialize_first_selection false db).1 = db
        rw [h1]
    | none =>
        have hsome := find_by_round_init_some db hfind
        rw [init_of_round1_exists false _ hsome]
  · intro db hwf hf
    exact ⟨find_by_round_init_some db hf, init_round1_content db hwf hf⟩

/-- C8 (witness): on the already-initialized store the call is a no-op, and
on the freshly seeded store it creates round 1 with exactly the 15-book
catalog. -/
theorem C8_initialize_idempotent_witness :
    GoncourtService.initialize_first_selection false dbRound1 = (dbRound1, []) ∧
    roundWorkIds
        (GoncourtService.initialize_first_selection false (initialDB testCatalog)).1 1 =
      (initialDB testCatalog).books.map Book.b_id :=
  ⟨C8_initialize_idempotent.1 false dbRound1 (by decide),
   (C8_initialize_idempotent.2.2 (initialDB testCatalog)
     (wf_initialDB testCatalog (by decide)) (by decide)).2⟩

/-- C9: the workflow operations never let a persistence exception escape —
each operation, run with its exception flow explicit and any injected DAO
fault, evaluates to `Except.ok` of exactly the total-function result
(conjuncts 1–5) — and every failure is surfaced with a reason: whenever an
operation returns `False`, its printed log is nonempty (conjuncts 6–9,
business-rule violations and DAO faults alike), and a persistence fault
during initialization is logged by the DAO handler (conjunct 10). -/
theorem C9_error_containment :
    (∀ (fault : Bool) (db : DB),
      GoncourtService.initialize_first_selectionE fault db =
        Except.ok (GoncourtService.initialize_first_selection fault db))
    ∧ (∀ (fault : Bool) (ids : List Nat) (db : DB),
        GoncourtService.create_deuxieme_selectionE fault ids db =
          Except.ok (GoncourtService.create_deuxieme_selection fault ids db))
    ∧ (∀ (fault : Bool) (ids : List Nat) (db : DB),
        GoncourtService.create_troisieme_selectionE fault ids db =
          Except.ok (GoncourtService.create_troisieme_selection fault ids db))
    ∧ (∀ (fault : Bool) (db : DB),
        GoncourtService.create_final_selectionE fault db =
          Except.ok (GoncourtService.create_final_selection fault db))
    ∧ (∀ (fault : Bool) (votes_data : List (Nat × Int)) (today : Nat) (db : DB),
        GoncourtService.record_final_votesE fault votes_data today db =
          Except.ok (GoncourtService.record_final_votes fault votes_data today db))
    ∧ (∀ (fault : Bool) (ids : List Nat) (db : DB), 0 < db.nextSelId →
        (GoncourtService.create_deuxieme_selection fault ids db).ok = false →
        (GoncourtService.create_deuxieme_selection fault ids db).log ≠ [])
    ∧ (∀ (fault : Bool) (ids : List Nat) (db : DB), 0 < db.nextSelId →
        (GoncourtService.create_troisieme_selection fault ids db).ok = false →
        (GoncourtService.create_troisieme_selection fault ids db).log ≠ [])
    ∧ (∀ (fault : Bool) (db : DB), 0 < db.nextSelId →
        (GoncourtService.create_final_selection fault db).ok = false →
        (GoncourtService.create_final_selection fault db).log ≠ [])
    ∧ (∀ (fault : Bool) (votes_data : List (Nat × Int)) (today : Nat) (db : DB),
        (GoncourtService.record_final_votes fault votes_data today db).ok = false →
        (GoncourtService.record_final_votes fault votes_data today db).log ≠ [])
    ∧ (∀ db : DB, SelectionDAO.find_by_round db 1 = none →
        (GoncourtService.initialize_first_selection true db).2 ≠ []) :=
  ⟨initE_refines, create_deuxiemeE_refines, create_troisiemeE_refines,
   create_finalE_refines, recordE_refines, create_deuxieme_fail_log,
   create_troisieme_fail_log, create_final_fail_log, record_fail_log,
   init_fault_logged⟩

/-- C9 (witness): a business-rule failure (round 2 asked for with 2 ids) and
an injected persistence fault during vote recording both return `False` with
a nonempty reason log. -/
theorem C9_error_containment_witness :
    (GoncourtService.create_deuxieme_selection false [1, 2] dbRound1).log ≠ [] ∧
    (GoncourtService.record_final_votes true [(1, 4), (2, 3), (3, 2), (4, 1)]
      20251104 dbRound4).log ≠ [] :=
  ⟨C9_error_containment.2.2.2.2.2.1 false [1, 2] dbRound1 (by decide) (by decide),
   C9_error_containment.2.2.2.2.2.2.2.2.1 true [(1, 4), (2, 3), (3, 2), (4, 1)]
     20251104 dbRound4 (by decide)⟩

/-- C10 (implicit): `record_final_votes` never checks that individual counts
are non-negative: the map {1 ↦ −1, 2 ↦ 11, 3 ↦ 0, 4 ↦ 0} covers exactly
round 4's works and sums to 10, so it is accepted, and a vote record with a
negative count is stored. -/
theorem C10_negative_votes_accepted :
    [((1 : Nat), (-1 : Int)), (2, 11), (3, 0), (4, 0)].map Prod.fst =
      roundWorkIds dbRound4 4 ∧
    ([((1 : Nat), (-1 : Int)), (2, 11), (3, 0), (4, 0)].map Prod.snd).sum = 10 ∧
    (GoncourtService.record_final_votes false [(1, -1), (2, 11), (3, 0), (4, 0)]
      20251104 dbRound4).ok = true ∧
    ∃ v ∈ (GoncourtService.record_final_votes false [(1, -1), (2, 11), (3, 0), (4, 0)]
      20251104 dbRound4).db.votes, v.v_number_vote < 0 := by decide
